import Mathlib

/-!
Shallow embedding of the optiga-nbt-rpi-port transport and timer code.

The repository provides a timer abstraction with three backends
(timer-rpi.c using POSIX signal timers, timer-freertos.c using FreeRTOS
software timers plus a binary semaphore, timer-cyhal.c using a hardware
down-counter) and a Raspberry Pi I2C transport layer (i2c-cyhal.c) which
enforces an inter-transaction guard time built on the timer abstraction.

OS and HAL calls (malloc, timer_create, sigaction, timer_settime,
timer_delete, ioctl, write, read, xTimerCreate, ...) are modelled by
boolean/integer environment records stating the outcome of each call;
the functions below are otherwise line-by-line transcriptions of the C.
NULL object pointers cannot be passed in this embedding (Lean values are
never null), so the `self == NULL` / `timer == NULL` argument checks of
the C code have no counterpart here; the "never set" state of a timer is
its `_start = none` field, exactly as `_start == NULL` in the C.
-/

namespace OptigaNbt

/-- Status type of the external ifx-error interface. Modelled from the spec:
every fallible operation returns a tri-part code of module, function and
reason, with success a distinguished ok value. The C packs the three parts
into one word with an error indicator bit; the packing is injective on the
byte-sized identifiers used here, so an inductive with three fields is a
faithful model. -/
inductive ifx_status_t where
  | success : ifx_status_t
  | error : Nat → Nat → Nat → ifx_status_t
deriving DecidableEq, Repr

/-- Success value `IFX_SUCCESS` of the external ifx-error interface. -/
def IFX_SUCCESS : ifx_status_t := ifx_status_t.success

/-- `IFX_ERROR(module, function, reason)` constructor of the external
ifx-error interface. -/
def IFX_ERROR (module func reason : Nat) : ifx_status_t :=
  ifx_status_t.error module func reason

/-- `ifx_error_check`: true iff the status carries the error indicator. -/
def ifx_error_check : ifx_status_t → Bool
  | ifx_status_t.success => false
  | ifx_status_t.error _ _ _ => true

/-- `ifx_error_get_module` of the external ifx-error interface. -/
def ifx_error_get_module : ifx_status_t → Nat
  | ifx_status_t.success => 0
  | ifx_status_t.error m _ _ => m

/-- `ifx_error_get_function` of the external ifx-error interface. -/
def ifx_error_get_function : ifx_status_t → Nat
  | ifx_status_t.success => 0
  | ifx_status_t.error _ f _ => f

/-- `ifx_error_get_reason` of the external ifx-error interface. -/
def ifx_error_get_reason : ifx_status_t → Nat
  | ifx_status_t.success => 0
  | ifx_status_t.error _ _ r => r

/- Module, function and reason identifiers. LIBI2CCYHAL and
I2C_CYHAL_PROTOCOLLAYER_ID are 0x35 as in the repository headers; the
remaining identifiers live in the external ifx-error/ifx-timer/ifx-protocol
headers and are modelled as arbitrary but pairwise distinct byte values,
which is the only property the code under verification relies on. -/

/-- Module identifier of the timer library (external ifx-timer.h). -/
def LIB_TIMER : Nat := 0x30

/-- Module identifier of the protocol library (external ifx-protocol.h). -/
def LIB_PROTOCOL : Nat := 0x31

/-- Module identifier `LIBI2CCYHAL` (infineon/i2c-cyhal.h). -/
def LIBI2CCYHAL : Nat := 0x35

/-- Function identifier `IFX_TIMER_SET` (external ifx-timer.h). -/
def IFX_TIMER_SET : Nat := 0x01

/-- Function identifier `IFX_TIMER_JOIN` (external ifx-timer.h). -/
def IFX_TIMER_JOIN : Nat := 0x02

/-- Function identifier `IFX_PROTOCOL_LAYER_INITIALIZE` (external
ifx-protocol.h); name shortened here. -/
def IFX_PROTOCOL_LAYER_INIT : Nat := 0x10

/-- Function identifier `IFX_PROTOCOL_ACTIVATE` (external ifx-protocol.h). -/
def IFX_PROTOCOL_ACTIVATE : Nat := 0x11

/-- Function identifier `IFX_PROTOCOL_TRANSMIT` (external ifx-protocol.h). -/
def IFX_PROTOCOL_TRANSMIT : Nat := 0x12

/-- Function identifier `IFX_PROTOCOL_RECEIVE` (external ifx-protocol.h). -/
def IFX_PROTOCOL_RECEIVE : Nat := 0x13

/-- Function identifier `IFX_I2C_GET_CLOCK_FREQUENCY` (external ifx-i2c.h). -/
def IFX_I2C_GET_CLOCK_FREQUENCY : Nat := 0x20

/-- Function identifier `IFX_I2C_SET_CLOCK_FREQUENCY` (external ifx-i2c.h). -/
def IFX_I2C_SET_CLOCK_FREQUENCY : Nat := 0x21

/-- Function identifier `IFX_I2C_GET_SLAVE_ADDR` (external ifx-i2c.h). -/
def IFX_I2C_GET_SLAVE_ADDR : Nat := 0x22

/-- Function identifier `IFX_I2C_SET_SLAVE_ADDR` (external ifx-i2c.h). -/
def IFX_I2C_SET_SLAVE_ADDR : Nat := 0x23

/-- Function identifier `IFX_I2C_GET_GUARD_TIME` (external ifx-i2c.h). -/
def IFX_I2C_GET_GUARD_TIME : Nat := 0x24

/-- Function identifier `IFX_I2C_SET_GUARD_TIME` (external ifx-i2c.h). -/
def IFX_I2C_SET_GUARD_TIME : Nat := 0x25

/-- Function identifier `IFX_I2C_CYHAL_GET_PROPERTIES` (i2c-cyhal.h, 0x80). -/
def IFX_I2C_CYHAL_GET_PROPERTIES : Nat := 0x80

/-- Reason code `IFX_ILLEGAL_ARGUMENT` (external ifx-error.h). -/
def IFX_ILLEGAL_ARGUMENT : Nat := 0x01

/-- Reason code `IFX_OUT_OF_MEMORY` (external ifx-error.h). -/
def IFX_OUT_OF_MEMORY : Nat := 0x02

/-- Reason code `IFX_UNSPECIFIED_ERROR` (external ifx-error.h). -/
def IFX_UNSPECIFIED_ERROR : Nat := 0x03

/-- Reason code `IFX_TIMER_NOT_SET` (external ifx-timer.h). -/
def IFX_TIMER_NOT_SET : Nat := 0x04

/-- Reason code `IFX_PROTOCOL_STACK_INVALID` (external ifx-protocol.h). -/
def IFX_PROTOCOL_STACK_INVALID : Nat := 0x05

/-- `UINT32_MAX` as used by the `us > UINT32_MAX` parameter checks. -/
def UINT32_MAX : Nat := 4294967295

end OptigaNbt

/-! ## Timer backend: timer-rpi.c (POSIX signal timers) -/

namespace OptigaNbt.TimerRpi

/-- Backend state `struct posix_timer_rpi` of timer-rpi.c. Only the fields
with observable behaviour are modelled: the `is_timer_elapsed` flag that the
signal handler flips, and whether `timer_settime` actually armed a live
countdown. POSIX `timer_settime` with a zero `it_value` DISARMS the timer,
so the countdown is live only when the requested duration is positive
(`it_value.tv_nsec = us * 1000`). -/
structure posix_timer_rpi where
  is_timer_elapsed : Bool
  armed : Bool
deriving DecidableEq, Repr

/-- Generic `ifx_timer_t` of the external ifx-timer.h, instantiated with the
POSIX backend state: `_start` is the backend state pointer (`none` = NULL)
and `_duration` the cached duration. -/
structure ifx_timer_t where
  _start : Option posix_timer_rpi
  _duration : Nat
deriving DecidableEq, Repr

/-- Outcomes of the OS calls made by `ifx_timer_set` of timer-rpi.c. -/
structure RpiSetEnv where
  malloc_ok : Bool
  timer_create_ok : Bool
  sigaction_ok : Bool
  timer_settime_ok : Bool
  timer_delete_ok : Bool
deriving DecidableEq, Repr

/-- Backend resources still allocated when a call returns: the malloc'd
`struct posix_timer_rpi` and the OS timer created by `timer_create`. -/
structure RpiResources where
  struct_live : Bool
  os_timer_live : Bool
deriving DecidableEq, Repr

/-- An `RpiSetEnv` in which every OS call succeeds. -/
def rpiAllOk : RpiSetEnv :=
  { malloc_ok := true, timer_create_ok := true, sigaction_ok := true,
    timer_settime_ok := true, timer_delete_ok := true }

/-- `ifx_timer_set` of timer-rpi.c. Returns the status, the timer object as
left by the call, and the backend resources still allocated on return.
Transcription: validate `us`, malloc the backend struct, fill `sev`/`sa`/
`its` (elapsed flag false, `it_value.tv_nsec = us * 1000`), `timer_create`,
`sigaction`, `timer_settime`; on `sigaction`/`timer_settime` failure the
code jumps to `deinit_timer` which calls `timer_delete` and RETURNS EARLY
without freeing the struct when `timer_delete` itself fails; on success it
stores the struct in `timer->_start` (and, unlike timer-freertos.c, does
not touch `_duration`). -/
def ifx_timer_set (env : RpiSetEnv) (timer : ifx_timer_t) (us : Nat) :
    ifx_status_t × ifx_timer_t × RpiResources :=
  if us > UINT32_MAX then
    (IFX_ERROR LIB_TIMER IFX_TIMER_SET IFX_ILLEGAL_ARGUMENT, timer,
      { struct_live := false, os_timer_live := false })
  else if !env.malloc_ok then
    (IFX_ERROR LIB_TIMER IFX_TIMER_SET IFX_OUT_OF_MEMORY, timer,
      { struct_live := false, os_timer_live := false })
  else if !env.timer_create_ok then
    -- goto free_timer: free(rpi_timer)
    (IFX_ERROR LIB_TIMER IFX_TIMER_SET IFX_UNSPECIFIED_ERROR, timer,
      { struct_live := false, os_timer_live := false })
  else if !env.sigaction_ok then
    -- goto deinit_timer
    if !env.timer_delete_ok then
      (IFX_ERROR LIB_TIMER IFX_TIMER_SET IFX_UNSPECIFIED_ERROR, timer,
        { struct_live := true, os_timer_live := true })
    else
      (IFX_ERROR LIB_TIMER IFX_TIMER_SET IFX_UNSPECIFIED_ERROR, timer,
        { struct_live := false, os_timer_live := false })
  else if !env.timer_settime_ok then
    -- goto deinit_timer
    if !env.timer_delete_ok then
      (IFX_ERROR LIB_TIMER IFX_TIMER_SET IFX_UNSPECIFIED_ERROR, timer,
        { struct_live := true, os_timer_live := true })
    else
      (IFX_ERROR LIB_TIMER IFX_TIMER_SET IFX_UNSPECIFIED_ERROR, timer,
        { struct_live := false, os_timer_live := false })
  else
    (IFX_SUCCESS,
      { timer with _start := some { is_timer_elapsed := false, armed := us > 0 } },
      { struct_live := true, os_timer_live := true })

/-- `ifx_timer_has_elapsed` of timer-rpi.c: a timer with no backend state is
elapsed by definition; otherwise the handler-set flag is read. -/
def ifx_timer_has_elapsed (timer : ifx_timer_t) : Bool :=
  match timer._start with
  | none => true
  | some rpi_timer => rpi_timer.is_timer_elapsed

/-- The signal `handler` of timer-rpi.c as delivered by the OS: it sets the
elapsed flag of the backend state. Delivery only ever happens for a live
(armed) countdown, since a zero `it_value` disarms the POSIX timer. -/
def rpi_fire (timer : ifx_timer_t) : ifx_timer_t :=
  match timer._start with
  | none => timer
  | some rpi_timer =>
    if rpi_timer.armed then
      { timer with _start := some { rpi_timer with is_timer_elapsed := true } }
    else
      timer

/-- `ifx_timer_join` of timer-rpi.c, modelled at its return point: a NULL
`_start` yields the distinct not-set error before anything else; otherwise
the call spins until the handler has set the elapsed flag and then calls
`timer_delete`, whose outcome (`delete_ok`) decides the status. The C takes
a const pointer and mutates only the heap flag, so the timer object itself
is returned by the caller unchanged; only the status is of interest here. -/
def ifx_timer_join (delete_ok : Bool) (timer : ifx_timer_t) : ifx_status_t :=
  match timer._start with
  | none => IFX_ERROR LIB_TIMER IFX_TIMER_JOIN IFX_TIMER_NOT_SET
  | some _ =>
    if !delete_ok then IFX_ERROR LIB_TIMER IFX_TIMER_JOIN IFX_UNSPECIFIED_ERROR
    else IFX_SUCCESS

/-- `ifx_timer_destroy` of timer-rpi.c: when backend state exists it is
deleted (`timer_delete`) and freed; in every case `_start` is reset to NULL
and `_duration` to 0. The function returns void and cannot fail. -/
def ifx_timer_destroy (timer : ifx_timer_t) : ifx_timer_t :=
  match timer._start with
  | some _ => { _start := none, _duration := 0 }
  | none => { _start := none, _duration := 0 }

/-- Number of backend resources a timer object still owns (its backend
struct together with the OS timer handle inside it). -/
def ownedResources (timer : ifx_timer_t) : Nat :=
  match timer._start with
  | some _ => 1
  | none => 0

end OptigaNbt.TimerRpi

/-! ## Timer backend: timer-freertos.c -/

namespace OptigaNbt.TimerFreertos

/-- Backend state `struct timer_freertos_data` of timer-freertos.c:
the FreeRTOS timer handle and the binary semaphore (`none` = NULL). -/
structure timer_freertos_data where
  timer : Option Unit
  sleeper : Option Unit
deriving DecidableEq, Repr

/-- `ifx_timer_t` instantiated with the FreeRTOS backend state. -/
structure ifx_timer_t where
  _start : Option timer_freertos_data
  _duration : Nat
deriving DecidableEq, Repr

/-- Outcomes of the RTOS calls made by `ifx_timer_set` of timer-freertos.c.
`xTimerDelete` retried in a loop until it succeeds, so it needs no flag. -/
structure FreertosSetEnv where
  calloc_ok : Bool
  sem_create_ok : Bool
  timer_create_ok : Bool
  timer_start_ok : Bool
deriving DecidableEq, Repr

/-- Backend resources still allocated when a call returns. -/
structure FreertosResources where
  data_live : Bool
  sem_live : Bool
  timer_live : Bool
deriving DecidableEq, Repr

/-- `ifx_timer_set` of timer-freertos.c. `ms = ceil(us / 1000)` (the C
computes this via double-precision `ceil`; exact for every representable
duration of interest). Every failure path releases everything created so
far: semaphore-creation failure frees the struct; timer-creation failure
deletes the semaphore and frees; timer-start failure deletes the timer
(retrying), deletes the semaphore and frees. On success `_start` holds the
struct and `_duration` is set to `ms`. -/
def ifx_timer_set (env : FreertosSetEnv) (timer : ifx_timer_t) (us : Nat) :
    ifx_status_t × ifx_timer_t × FreertosResources :=
  if (us + 999) / 1000 > UINT32_MAX then
    (IFX_ERROR LIB_TIMER IFX_TIMER_SET IFX_ILLEGAL_ARGUMENT, timer,
      { data_live := false, sem_live := false, timer_live := false })
  else if !env.calloc_ok then
    (IFX_ERROR LIB_TIMER IFX_TIMER_SET IFX_OUT_OF_MEMORY, timer,
      { data_live := false, sem_live := false, timer_live := false })
  else if !env.sem_create_ok then
    (IFX_ERROR LIB_TIMER IFX_TIMER_SET IFX_UNSPECIFIED_ERROR, timer,
      { data_live := false, sem_live := false, timer_live := false })
  else if !env.timer_create_ok then
    (IFX_ERROR LIB_TIMER IFX_TIMER_SET IFX_UNSPECIFIED_ERROR, timer,
      { data_live := false, sem_live := false, timer_live := false })
  else if !env.timer_start_ok then
    (IFX_ERROR LIB_TIMER IFX_TIMER_SET IFX_UNSPECIFIED_ERROR, timer,
      { data_live := false, sem_live := false, timer_live := false })
  else
    (IFX_SUCCESS,
      { _start := some { timer := some (), sleeper := some () },
        _duration := (us + 999) / 1000 },
      { data_live := true, sem_live := true, timer_live := true })

/-- `ifx_timer_has_elapsed` of timer-freertos.c: NULL `_start` or NULL
FreeRTOS handle reports elapsed; otherwise `xTimerIsTimerActive == pdFALSE`
is consulted (`timer_active` is that RTOS-side observation). -/
def ifx_timer_has_elapsed (timer_active : Bool) (timer : ifx_timer_t) : Bool :=
  match timer._start with
  | none => true
  | some data =>
    match data.timer with
    | none => true
    | some _ => !timer_active

/-- `ifx_timer_join` of timer-freertos.c: NULL `_start` or NULL semaphore
yield the distinct not-set error; otherwise the call blocks in
`xSemaphoreTake` whose outcome (`take_ok`) decides the status. -/
def ifx_timer_join (take_ok : Bool) (timer : ifx_timer_t) : ifx_status_t :=
  match timer._start with
  | none => IFX_ERROR LIB_TIMER IFX_TIMER_JOIN IFX_TIMER_NOT_SET
  | some data =>
    match data.sleeper with
    | none => IFX_ERROR LIB_TIMER IFX_TIMER_JOIN IFX_TIMER_NOT_SET
    | some _ =>
      if !take_ok then IFX_ERROR LIB_TIMER IFX_TIMER_JOIN IFX_UNSPECIFIED_ERROR
      else IFX_SUCCESS

/-- `ifx_timer_destroy` of timer-freertos.c: deletes the FreeRTOS timer
(retrying until `pdPASS`), deletes the semaphore, frees the struct; in
every case `_start` is reset to NULL and `_duration` to 0. -/
def ifx_timer_destroy (timer : ifx_timer_t) : ifx_timer_t :=
  match timer._start with
  | some _ => { _start := none, _duration := 0 }
  | none => { _start := none, _duration := 0 }

/-- Number of backend resource groups a timer object still owns. -/
def ownedResources (timer : ifx_timer_t) : Nat :=
  match timer._start with
  | some _ => 1
  | none => 0

end OptigaNbt.TimerFreertos

/-! ## Timer backend: timer-cyhal.c (hardware down-counter) -/

namespace OptigaNbt.TimerCyhal

/-- Backend state of timer-cyhal.c: the `cyhal_timer_t` down-counter,
configured by `ifx_timer_set` with `direction = DOWN`, `period = us` and
initial `value = us` at 1 MHz. Only the live counter value is observable
(via `cyhal_timer_read`). -/
structure cyhal_timer_t where
  value : Nat
deriving DecidableEq, Repr

/-- `ifx_timer_t` instantiated with the hardware-countdown backend state. -/
structure ifx_timer_t where
  _start : Option cyhal_timer_t
  _duration : Nat
deriving DecidableEq, Repr

/-- Outcomes of the HAL calls made by `ifx_timer_set` of timer-cyhal.c. -/
structure CyhalSetEnv where
  malloc_ok : Bool
  timer_init_ok : Bool
  set_frequency_ok : Bool
  configure_ok : Bool
  timer_start_ok : Bool
deriving DecidableEq, Repr

/-- Backend resources still allocated when a call returns. -/
structure CyhalResources where
  struct_live : Bool
  hw_timer_live : Bool
deriving DecidableEq, Repr

/-- `ifx_timer_set` of timer-cyhal.c. Init failure frees only the struct
(`goto free_timer`); later failures release the HAL timer and then the
struct (`goto deinit_timer`). On success `_start` holds the counter,
started at `value = us`; `_duration` is not touched. -/
def ifx_timer_set (env : CyhalSetEnv) (timer : ifx_timer_t) (us : Nat) :
    ifx_status_t × ifx_timer_t × CyhalResources :=
  if us > UINT32_MAX then
    (IFX_ERROR LIB_TIMER IFX_TIMER_SET IFX_ILLEGAL_ARGUMENT, timer,
      { struct_live := false, hw_timer_live := false })
  else if !env.malloc_ok then
    (IFX_ERROR LIB_TIMER IFX_TIMER_SET IFX_OUT_OF_MEMORY, timer,
      { struct_live := false, hw_timer_live := false })
  else if !env.timer_init_ok then
    (IFX_ERROR LIB_TIMER IFX_TIMER_SET IFX_UNSPECIFIED_ERROR, timer,
      { struct_live := false, hw_timer_live := false })
  else if !env.set_frequency_ok then
    (IFX_ERROR LIB_TIMER IFX_TIMER_SET IFX_UNSPECIFIED_ERROR, timer,
      { struct_live := false, hw_timer_live := false })
  else if !env.configure_ok then
    (IFX_ERROR LIB_TIMER IFX_TIMER_SET IFX_UNSPECIFIED_ERROR, timer,
      { struct_live := false, hw_timer_live := false })
  else if !env.timer_start_ok then
    (IFX_ERROR LIB_TIMER IFX_TIMER_SET IFX_UNSPECIFIED_ERROR, timer,
      { struct_live := false, hw_timer_live := false })
  else
    (IFX_SUCCESS,
      { timer with _start := some { value := us } },
      { struct_live := true, hw_timer_live := true })

/-- `ifx_timer_has_elapsed` of timer-cyhal.c: NULL `_start` reports elapsed;
otherwise elapsed iff `cyhal_timer_read` returns 0. -/
def ifx_timer_has_elapsed (timer : ifx_timer_t) : Bool :=
  match timer._start with
  | none => true
  | some cy_timer => cy_timer.value == 0

/-- `ifx_timer_join` of timer-cyhal.c: NULL `_start` yields the distinct
not-set error; otherwise the remaining time is read from the live counter
and slept out (`delay_ok` is the outcome of `cyhal_system_delay_ms`, only
consulted when at least one whole millisecond remains), after which the
HAL timer is freed. -/
def ifx_timer_join (delay_ok : Bool) (timer : ifx_timer_t) : ifx_status_t :=
  match timer._start with
  | none => IFX_ERROR LIB_TIMER IFX_TIMER_JOIN IFX_TIMER_NOT_SET
  | some cy_timer =>
    if cy_timer.value / 1000 > 0 && !delay_ok then
      IFX_ERROR LIB_TIMER IFX_TIMER_JOIN IFX_UNSPECIFIED_ERROR
    else IFX_SUCCESS

/-- `ifx_timer_destroy` of timer-cyhal.c: frees the HAL timer and the
struct when present; in every case `_start` is reset to NULL and
`_duration` to 0. -/
def ifx_timer_destroy (timer : ifx_timer_t) : ifx_timer_t :=
  match timer._start with
  | some _ => { _start := none, _duration := 0 }
  | none => { _start := none, _duration := 0 }

/-- Number of backend resource groups a timer object still owns. -/
def ownedResources (timer : ifx_timer_t) : Nat :=
  match timer._start with
  | some _ => 1
  | none => 0

end OptigaNbt.TimerCyhal

/-! ## I2C transport layer: i2c-cyhal.c -/

namespace OptigaNbt

/-- `I2C_CYHAL_PROTOCOLLAYER_ID` (i2c-cyhal.h). -/
def I2C_CYHAL_PROTOCOLLAYER_ID : Nat := 0x35

/-- `I2C_CYHAL_DEFAULT_CLOCK_FREQUENCY_HZ` (i2c-cyhal.h). -/
def I2C_CYHAL_DEFAULT_CLOCK_FREQUENCY_HZ : Nat := 400000

/-- `I2C_CYHAL_DEFAULT_GUARD_TIME_US` (i2c-cyhal.h). -/
def I2C_CYHAL_DEFAULT_GUARD_TIME_US : Nat := 0

/-- `IFX_PROTOCOL_RECEIVE_LEN_UNKOWN` of the external ifx-protocol.h,
the sentinel for unknown-length reads (SIZE_MAX). -/
def IFX_PROTOCOL_RECEIVE_LEN_UNKOWN : Nat := 18446744073709551615

/-- `I2CCyHALProtocolProperties` (i2c-cyhal.h): the per-instance state of
the Raspberry Pi I2C layer. `native_instance` is the file descriptor of
the opened I2C character device; `slave_address` is a uint8_t cached
address; the guard-time timer uses the Linux POSIX timer backend that this
port links against. -/
structure I2CCyHALProtocolProperties where
  native_instance : Int
  slave_address : Nat
  clock_frequency_hz : Nat
  guard_time_us : Nat
  _guard_time_timer : TimerRpi.ifx_timer_t
deriving DecidableEq, Repr

/-- `ifx_protocol_t` of the external ifx-protocol.h, restricted to the
single i2c-cyhal layer that `i2c_cyhal_initialize` builds (the framework's
`_base` chain for stacked layers is not needed for any property below:
`i2c_cyhal_get_protocol_properties` would merely recurse into `_base` until
it finds this layer id). `_properties` is the opaque state pointer
(`none` = NULL / uninitialized / destroyed). -/
structure ifx_protocol_t where
  _layer_id : Nat
  _properties : Option I2CCyHALProtocolProperties
deriving DecidableEq, Repr

/-- `i2c_cyhal_get_protocol_properties` of i2c-cyhal.c for a single-layer
stack: wrong layer id (with no `_base` to recurse into) or a NULL
`_properties` pointer signal `IFX_PROTOCOL_STACK_INVALID`; otherwise the
properties are handed out. -/
def i2c_cyhal_get_protocol_properties (self : ifx_protocol_t) :
    Except ifx_status_t I2CCyHALProtocolProperties :=
  if self._layer_id != I2C_CYHAL_PROTOCOLLAYER_ID then
    Except.error (IFX_ERROR LIBI2CCYHAL IFX_I2C_CYHAL_GET_PROPERTIES IFX_PROTOCOL_STACK_INVALID)
  else
    match self._properties with
    | none =>
      Except.error (IFX_ERROR LIBI2CCYHAL IFX_I2C_CYHAL_GET_PROPERTIES IFX_PROTOCOL_STACK_INVALID)
    | some properties => Except.ok properties

/-- `i2c_cyhal_initialize` of i2c-cyhal.c (name shortened). Rejects the
sentinel "not opened" descriptor -1, then calls the external framework's
`ifx_protocol_layer_initialize` (outcome `layer_init_result`), installs the
layer id and callbacks, and mallocs the properties. The code assigns
`native_instance`, `clock_frequency_hz` (default), `slave_address` and
`_guard_time_timer._start = NULL` — it never assigns `guard_time_us` or
`_guard_time_timer._duration`, so those two fields keep whatever bytes
malloc returned, modelled by the `guard_time_garbage` / `duration_garbage`
parameters (`I2C_CYHAL_DEFAULT_GUARD_TIME_US` exists in the header but is
never used). -/
def i2c_cyhal_init (self : ifx_protocol_t) (layer_init_result : ifx_status_t)
    (malloc_ok : Bool) (guard_time_garbage duration_garbage : Nat)
    (native_instance : Int) (slave_address : Nat) : ifx_status_t × ifx_protocol_t :=
  if native_instance == -1 then
    (IFX_ERROR LIBI2CCYHAL IFX_PROTOCOL_LAYER_INIT IFX_ILLEGAL_ARGUMENT, self)
  else if ifx_error_check layer_init_result then
    (layer_init_result, self)
  else
    let self := { self with _layer_id := I2C_CYHAL_PROTOCOLLAYER_ID }
    if !malloc_ok then
      (IFX_ERROR LIBI2CCYHAL IFX_PROTOCOL_LAYER_INIT IFX_OUT_OF_MEMORY, self)
    else
      (IFX_SUCCESS,
        { self with _properties := some {
            native_instance := native_instance,
            slave_address := slave_address,
            clock_frequency_hz := I2C_CYHAL_DEFAULT_CLOCK_FREQUENCY_HZ,
            guard_time_us := guard_time_garbage,
            _guard_time_timer := { _start := none, _duration := duration_garbage } } })

/-- `i2c_cyhal_start_guard_time` of i2c-cyhal.c: destroy any old timer just
to be sure, then set a new timer for `guard_time_us` when the configured
guard time is positive, else succeed without arming. `set_env` carries the
OS-call outcomes of the underlying `ifx_timer_set`. -/
def i2c_cyhal_start_guard_time (set_env : TimerRpi.RpiSetEnv)
    (properties : I2CCyHALProtocolProperties) :
    ifx_status_t × I2CCyHALProtocolProperties :=
  let t0 := TimerRpi.ifx_timer_destroy properties._guard_time_timer
  if properties.guard_time_us > 0 then
    let r := TimerRpi.ifx_timer_set set_env t0 properties.guard_time_us
    (r.1, { properties with _guard_time_timer := r.2.1 })
  else
    (IFX_SUCCESS, { properties with _guard_time_timer := t0 })

/-- `i2c_cyhal_await_guard_time` of i2c-cyhal.c: return success at once if
no guard timer is pending (`_start == NULL`); otherwise join the pending
timer and destroy it unconditionally, then rewrite a join error whose
(module, function, reason) triple is exactly (LIB_TIMER, IFX_TIMER_JOIN,
IFX_TIMER_NOT_SET) into success. `join_result` is the outcome of
`ifx_timer_join` on the pending timer; it depends on real-time elapse and
on the backend's OS calls, so it is supplied as an oracle. -/
def i2c_cyhal_await_guard_time (join_result : ifx_status_t)
    (properties : I2CCyHALProtocolProperties) :
    ifx_status_t × I2CCyHALProtocolProperties :=
  match properties._guard_time_timer._start with
  | none => (IFX_SUCCESS, properties)
  | some _ =>
    let status := join_result
    let properties := { properties with
      _guard_time_timer := TimerRpi.ifx_timer_destroy properties._guard_time_timer }
    if ifx_error_check status then
      if ifx_error_get_module status == LIB_TIMER
          && ifx_error_get_function status == IFX_TIMER_JOIN
          && ifx_error_get_reason status == IFX_TIMER_NOT_SET then
        (IFX_SUCCESS, properties)
      else
        (status, properties)
    else
      (status, properties)

/-- Observable bus-level steps of a transmit/receive call, in the order
the call performs them: the guard-time await, the `ioctl(I2C_SLAVE, addr)`
device select, the actual `write`/`read`, and the arming of the fresh
guard timer. -/
inductive BusEvent where
  | guardAwait : BusEvent
  | deviceSelect : Nat → BusEvent
  | busWrite : Nat → BusEvent
  | busRead : Nat → BusEvent
  | guardStart : Nat → BusEvent
deriving DecidableEq, Repr

/-- Outcomes of the OS calls made by `i2c_cyhal_transmit`: the join of a
pending guard timer, the `ioctl` device select, the value returned by
`write` (the C checks `write(...) != data_len`), and the OS calls of the
guard-timer arming. -/
structure TransmitEnv where
  join_result : ifx_status_t
  ioctl_ok : Bool
  write_result : Int
  set_env : TimerRpi.RpiSetEnv
deriving DecidableEq, Repr

/-- `i2c_cyhal_transmit` of i2c-cyhal.c. Returns the status, the protocol
object with its (heap-) properties as left by the call, and the trace of
bus-level steps performed. Transcription: reject empty or over-long data, fetch
the properties, await the guard time (propagating its error), select the
device via `ioctl` (failure: unspecified error, RETURNS WITHOUT ARMING),
`write` all bytes (short or failed write: unspecified error, RETURNS
WITHOUT ARMING), then start the fresh guard timer and propagate an arming
failure; logging is compiled out (`CHECKED_LOG` is a no-op unless
`I2C_LOG_ENABLE` is set). `data` stands for the non-NULL byte buffer with
`data_len = data.length`. -/
def i2c_cyhal_transmit (env : TransmitEnv) (self : ifx_protocol_t)
    (data : List Nat) : ifx_status_t × ifx_protocol_t × List BusEvent :=
  if data.length == 0 || data.length > UINT32_MAX then
    (IFX_ERROR LIBI2CCYHAL IFX_PROTOCOL_TRANSMIT IFX_ILLEGAL_ARGUMENT, self, [])
  else
    match i2c_cyhal_get_protocol_properties self with
    | Except.error status => (status, self, [])
    | Except.ok properties =>
      let a := i2c_cyhal_await_guard_time env.join_result properties
      let properties := a.2
      let self := { self with _properties := some properties }
      if ifx_error_check a.1 then
        (a.1, self, [BusEvent.guardAwait])
      else if !env.ioctl_ok then
        (IFX_ERROR LIBI2CCYHAL IFX_PROTOCOL_TRANSMIT IFX_UNSPECIFIED_ERROR, self,
          [BusEvent.guardAwait])
      else if env.write_result != (data.length : Int) then
        (IFX_ERROR LIBI2CCYHAL IFX_PROTOCOL_TRANSMIT IFX_UNSPECIFIED_ERROR, self,
          [BusEvent.guardAwait, BusEvent.deviceSelect properties.slave_address])
      else
        let s := i2c_cyhal_start_guard_time env.set_env properties
        let self := { self with _properties := some s.2 }
        if ifx_error_check s.1 then
          (s.1, self,
            [BusEvent.guardAwait, BusEvent.deviceSelect properties.slave_address,
              BusEvent.busWrite data.length, BusEvent.guardStart properties.guard_time_us])
        else
          (IFX_SUCCESS, self,
            [BusEvent.guardAwait, BusEvent.deviceSelect properties.slave_address,
              BusEvent.busWrite data.length, BusEvent.guardStart properties.guard_time_us])

/-- Outcomes of the OS calls made by `i2c_cyhal_receive`: the join of a
pending guard timer, the `malloc` of the receive buffer, the `ioctl`
device select, the value returned by `read` (bytes read, or -1), and the
OS calls of the guard-timer arming. -/
structure ReceiveEnv where
  join_result : ifx_status_t
  malloc_ok : Bool
  ioctl_ok : Bool
  read_result : Int
  set_env : TimerRpi.RpiSetEnv
deriving DecidableEq, Repr

/-- `i2c_cyhal_receive` of i2c-cyhal.c. Returns the status, the protocol
object as left by the call, the final value of the caller's `*response`
pointer (`some cap` = a buffer of `cap` allocated bytes, `none` = NULL or
never assigned), the final value of the caller's `*response_len`
(`none` = never assigned), and the trace of bus-level steps.
Transcription notes, faithful to the source:
the `ioctl` failure path returns the unspecified error WITHOUT freeing the
buffer already assigned to `*response` (and tags the error with the
`IFX_PROTOCOL_TRANSMIT` function id, as the source does on its bus-error
paths); the read step is `if (*response_len = read(...) == -1)`, which by
C precedence stores the 0/1 COMPARISON result — so only `read == -1` takes
the free/NULL/zero error path, a short read falls through, after which
`*response_len = expected_len` is stored unconditionally (the source
carries a TODO noting that `expected_len != response_len` is not made an
error); an arming failure frees the buffer, NULLs `*response`, zeroes
`*response_len` and propagates the arming status. -/
def i2c_cyhal_receive (env : ReceiveEnv) (self : ifx_protocol_t)
    (expected_len : Nat) :
    ifx_status_t × ifx_protocol_t × Option Nat × Option Nat × List BusEvent :=
  if expected_len == 0 || expected_len > UINT32_MAX
      || expected_len == IFX_PROTOCOL_RECEIVE_LEN_UNKOWN then
    (IFX_ERROR LIBI2CCYHAL IFX_PROTOCOL_RECEIVE IFX_ILLEGAL_ARGUMENT, self, none, none, [])
  else
    match i2c_cyhal_get_protocol_properties self with
    | Except.error status => (status, self, none, none, [])
    | Except.ok properties =>
      let a := i2c_cyhal_await_guard_time env.join_result properties
      let properties := a.2
      let self := { self with _properties := some properties }
      if ifx_error_check a.1 then
        (a.1, self, none, none, [BusEvent.guardAwait])
      else if !env.malloc_ok then
        (IFX_ERROR LIBI2CCYHAL IFX_PROTOCOL_RECEIVE IFX_OUT_OF_MEMORY, self, none, none,
          [BusEvent.guardAwait])
      else
        let response : Option Nat := some expected_len
        if !env.ioctl_ok then
          (IFX_ERROR LIBI2CCYHAL IFX_PROTOCOL_TRANSMIT IFX_UNSPECIFIED_ERROR, self,
            response, none, [BusEvent.guardAwait])
        else if env.read_result == -1 then
          (IFX_ERROR LIBI2CCYHAL IFX_PROTOCOL_TRANSMIT IFX_UNSPECIFIED_ERROR, self,
            none, some 0,
            [BusEvent.guardAwait, BusEvent.deviceSelect properties.slave_address])
        else
          let response_len : Option Nat := some expected_len
          let s := i2c_cyhal_start_guard_time env.set_env properties
          let self := { self with _properties := some s.2 }
          if ifx_error_check s.1 then
            (s.1, self, none, some 0,
              [BusEvent.guardAwait, BusEvent.deviceSelect properties.slave_address,
                BusEvent.busRead env.read_result.toNat,
                BusEvent.guardStart properties.guard_time_us])
          else
            (IFX_SUCCESS, self, response, response_len,
              [BusEvent.guardAwait, BusEvent.deviceSelect properties.slave_address,
                BusEvent.busRead env.read_result.toNat,
                BusEvent.guardStart properties.guard_time_us])

/-- `ifx_i2c_get_slave_address` of i2c-cyhal.c: fetch the properties
(propagating their error, with the caller's buffer untouched) and hand out
the cached uint8_t slave address. -/
def ifx_i2c_get_slave_address (self : ifx_protocol_t) : ifx_status_t × Option Nat :=
  match i2c_cyhal_get_protocol_properties self with
  | Except.error status => (status, none)
  | Except.ok properties => (IFX_SUCCESS, some properties.slave_address)

/-- `ifx_i2c_set_slave_address` of i2c-cyhal.c: reject 0 and values above
0xff, fetch the properties (propagating their error), and cache
`address & 0xff` (a no-op truncation for the accepted range) — no other
field of the instance state is written. -/
def ifx_i2c_set_slave_address (self : ifx_protocol_t) (address : Nat) :
    ifx_status_t × ifx_protocol_t :=
  if address == 0 || address > 0xff then
    (IFX_ERROR LIB_PROTOCOL IFX_I2C_SET_SLAVE_ADDR IFX_ILLEGAL_ARGUMENT, self)
  else
    match i2c_cyhal_get_protocol_properties self with
    | Except.error status => (status, self)
    | Except.ok properties =>
      (IFX_SUCCESS,
        { self with _properties := some { properties with slave_address := address % 256 } })

end OptigaNbt

/-! ## Helper lemmas -/

namespace OptigaNbt

/-- Destroying a POSIX-backend timer always yields the empty timer object. -/
lemma rpi_destroy_eq (t : TimerRpi.ifx_timer_t) :
    TimerRpi.ifx_timer_destroy t = { _start := none, _duration := 0 } := by
  unfold TimerRpi.ifx_timer_destroy
  split <;> rfl

/-- Destroying a FreeRTOS-backend timer always yields the empty timer object. -/
lemma freertos_destroy_eq (t : TimerFreertos.ifx_timer_t) :
    TimerFreertos.ifx_timer_destroy t = { _start := none, _duration := 0 } := by
  unfold TimerFreertos.ifx_timer_destroy
  split <;> rfl

/-- Destroying a hardware-backend timer always yields the empty timer object. -/
lemma cyhal_destroy_eq (t : TimerCyhal.ifx_timer_t) :
    TimerCyhal.ifx_timer_destroy t = { _start := none, _duration := 0 } := by
  unfold TimerCyhal.ifx_timer_destroy
  split <;> rfl

/-- A `CyhalSetEnv` in which every HAL call succeeds. -/
def cyhalAllOk : TimerCyhal.CyhalSetEnv :=
  { malloc_ok := true, timer_init_ok := true, set_frequency_ok := true,
    configure_ok := true, timer_start_ok := true }

/-- A `FreertosSetEnv` in which every RTOS call succeeds. -/
def freertosAllOk : TimerFreertos.FreertosSetEnv :=
  { calloc_ok := true, sem_create_ok := true, timer_create_ok := true,
    timer_start_ok := true }

end OptigaNbt

namespace OptigaNbt

/-! ## Claims about the Timer backends -/

/-- Claim C5 (confirmed): for every Timer that was never set (no backend
state, `_start = NULL`), `ifx_timer_join` returns the distinct
(LIB_TIMER, IFX_TIMER_JOIN, IFX_TIMER_NOT_SET) condition — not a generic
illegal-argument error — on each of the three backends, and it does so
independently of any OS-call outcome (the early return happens before any
spin, semaphore take or sleep, so the call cannot block). -/
theorem c5_join_on_never_set_timer
    (t1 : TimerRpi.ifx_timer_t) (t2 : TimerFreertos.ifx_timer_t)
    (t3 : TimerCyhal.ifx_timer_t)
    (h1 : t1._start = none) (h2 : t2._start = none) (h3 : t3._start = none)
    (d1 d2 d3 : Bool) :
    TimerRpi.ifx_timer_join d1 t1
      = IFX_ERROR LIB_TIMER IFX_TIMER_JOIN IFX_TIMER_NOT_SET
    ∧ TimerFreertos.ifx_timer_join d2 t2
      = IFX_ERROR LIB_TIMER IFX_TIMER_JOIN IFX_TIMER_NOT_SET
    ∧ TimerCyhal.ifx_timer_join d3 t3
      = IFX_ERROR LIB_TIMER IFX_TIMER_JOIN IFX_TIMER_NOT_SET
    ∧ IFX_TIMER_NOT_SET ≠ IFX_ILLEGAL_ARGUMENT := by
  refine ⟨?_, ?_, ?_, by decide⟩
  · unfold TimerRpi.ifx_timer_join
    rw [h1]
  · unfold TimerFreertos.ifx_timer_join
    rw [h2]
  · unfold TimerCyhal.ifx_timer_join
    rw [h3]

/-- Witness for C5 at the concrete never-set timers of the three backends. -/
theorem c5_witness :
    ({ _start := none, _duration := 0 } : TimerRpi.ifx_timer_t)._start = none
    ∧ TimerRpi.ifx_timer_join true { _start := none, _duration := 0 }
      = IFX_ERROR LIB_TIMER IFX_TIMER_JOIN IFX_TIMER_NOT_SET
    ∧ TimerFreertos.ifx_timer_join false { _start := none, _duration := 0 }
      = IFX_ERROR LIB_TIMER IFX_TIMER_JOIN IFX_TIMER_NOT_SET
    ∧ TimerCyhal.ifx_timer_join true { _start := none, _duration := 0 }
      = IFX_ERROR LIB_TIMER IFX_TIMER_JOIN IFX_TIMER_NOT_SET :=
  have h := c5_join_on_never_set_timer
    { _start := none, _duration := 0 } { _start := none, _duration := 0 }
    { _start := none, _duration := 0 } rfl rfl rfl true false true
  ⟨rfl, h.1, h.2.1, h.2.2.1⟩

/-- Claim C6 counterexample: on the POSIX backend (timer-rpi.c, the
backend this port links), `set(0)` on a fresh Timer succeeds and an
immediate `has_elapsed` returns FALSE, not true as the claim demands for
D = 0 — the elapsed flag is initialized to false and a zero `it_value`
disarms the POSIX timer, so even a subsequent signal-delivery opportunity
(`rpi_fire`) leaves the flag false. -/
theorem c6_counterexample :
    (TimerRpi.ifx_timer_set TimerRpi.rpiAllOk { _start := none, _duration := 0 } 0).1
      = IFX_SUCCESS
    ∧ TimerRpi.ifx_timer_has_elapsed
        (TimerRpi.ifx_timer_set TimerRpi.rpiAllOk { _start := none, _duration := 0 } 0).2.1
      = false
    ∧ TimerRpi.ifx_timer_has_elapsed
        (TimerRpi.rpi_fire
          (TimerRpi.ifx_timer_set TimerRpi.rpiAllOk { _start := none, _duration := 0 } 0).2.1)
      = false := by
  decide

/-- Claim C6 as amended: immediately after a successful `set(D)` (all OS
calls succeeding, D within the accepted range), `has_elapsed` returns
false for every D on the POSIX backend — including D = 0, whose zero
initial value disarms the POSIX timer — while on the hardware-countdown
backend it returns true exactly when D = 0 (the down-counter starts at D
and is read back directly). -/
theorem c6_amended_set_then_has_elapsed (us : Nat) (h : us ≤ UINT32_MAX)
    (t1 : TimerRpi.ifx_timer_t) (t3 : TimerCyhal.ifx_timer_t) :
    (TimerRpi.ifx_timer_set TimerRpi.rpiAllOk t1 us).1 = IFX_SUCCESS
    ∧ TimerRpi.ifx_timer_has_elapsed
        (TimerRpi.ifx_timer_set TimerRpi.rpiAllOk t1 us).2.1 = false
    ∧ (TimerCyhal.ifx_timer_set cyhalAllOk t3 us).1 = IFX_SUCCESS
    ∧ TimerCyhal.ifx_timer_has_elapsed
        (TimerCyhal.ifx_timer_set cyhalAllOk t3 us).2.1 = (us == 0) := by
  have hn : ¬ us > UINT32_MAX := Nat.not_lt.2 h
  refine ⟨?_, ?_, ?_, ?_⟩ <;>
    simp [TimerRpi.ifx_timer_set, TimerCyhal.ifx_timer_set, TimerRpi.rpiAllOk,
      cyhalAllOk, hn, TimerRpi.ifx_timer_has_elapsed, TimerCyhal.ifx_timer_has_elapsed,
      IFX_SUCCESS]

/-- Witness for the amended C6 at D = 5. -/
theorem c6_witness :
    (5 : Nat) ≤ UINT32_MAX
    ∧ ((TimerRpi.ifx_timer_set TimerRpi.rpiAllOk { _start := none, _duration := 0 } 5).1
        = IFX_SUCCESS
      ∧ TimerRpi.ifx_timer_has_elapsed
          (TimerRpi.ifx_timer_set TimerRpi.rpiAllOk { _start := none, _duration := 0 } 5).2.1
        = false
      ∧ (TimerCyhal.ifx_timer_set cyhalAllOk { _start := none, _duration := 0 } 5).1
        = IFX_SUCCESS
      ∧ TimerCyhal.ifx_timer_has_elapsed
          (TimerCyhal.ifx_timer_set cyhalAllOk { _start := none, _duration := 0 } 5).2.1
        = ((5 : Nat) == 0)) :=
  ⟨by decide, c6_amended_set_then_has_elapsed 5 (by decide)
    { _start := none, _duration := 0 } { _start := none, _duration := 0 }⟩

/-- Claim C7 (confirmed): on each backend, `ifx_timer_destroy` is
idempotent, never fails (it is a total function with no error result),
is safe on a never-set or already-destroyed Timer — every input, the
empty one included, is mapped to the empty timer object — releases all
backend resources, and leaves the Timer in the empty state in which
`has_elapsed` reports true (on the FreeRTOS backend for every possible
RTOS-side activity observation). -/
theorem c7_destroy_idempotent_never_fails
    (t1 : TimerRpi.ifx_timer_t) (t2 : TimerFreertos.ifx_timer_t)
    (t3 : TimerCyhal.ifx_timer_t) (active : Bool) :
    TimerRpi.ifx_timer_destroy (TimerRpi.ifx_timer_destroy t1)
      = TimerRpi.ifx_timer_destroy t1
    ∧ TimerRpi.ifx_timer_destroy t1 = { _start := none, _duration := 0 }
    ∧ TimerRpi.ifx_timer_has_elapsed (TimerRpi.ifx_timer_destroy t1) = true
    ∧ TimerRpi.ownedResources (TimerRpi.ifx_timer_destroy t1) = 0
    ∧ TimerFreertos.ifx_timer_destroy (TimerFreertos.ifx_timer_destroy t2)
      = TimerFreertos.ifx_timer_destroy t2
    ∧ TimerFreertos.ifx_timer_destroy t2 = { _start := none, _duration := 0 }
    ∧ TimerFreertos.ifx_timer_has_elapsed active (TimerFreertos.ifx_timer_destroy t2) = true
    ∧ TimerFreertos.ownedResources (TimerFreertos.ifx_timer_destroy t2) = 0
    ∧ TimerCyhal.ifx_timer_destroy (TimerCyhal.ifx_timer_destroy t3)
      = TimerCyhal.ifx_timer_destroy t3
    ∧ TimerCyhal.ifx_timer_destroy t3 = { _start := none, _duration := 0 }
    ∧ TimerCyhal.ifx_timer_has_elapsed (TimerCyhal.ifx_timer_destroy t3) = true
    ∧ TimerCyhal.ownedResources (TimerCyhal.ifx_timer_destroy t3) = 0 := by
  simp [rpi_destroy_eq, freertos_destroy_eq, cyhal_destroy_eq,
    TimerRpi.ifx_timer_has_elapsed, TimerFreertos.ifx_timer_has_elapsed,
    TimerCyhal.ifx_timer_has_elapsed, TimerRpi.ownedResources,
    TimerFreertos.ownedResources, TimerCyhal.ownedResources]

/-- Claim C8 counterexample: on the POSIX backend, when `timer_settime`
fails and the cleanup's `timer_delete` also fails, `ifx_timer_set` returns
the error from inside the `deinit_timer` label BEFORE reaching the
`free(rpi_timer)` statement — the malloc'd backend struct (and the created
OS timer) are still allocated on return, so not all partially-created
backend resources are released. (The Timer object itself is unmodified.) -/
theorem c8_counterexample :
    ifx_error_check
      (TimerRpi.ifx_timer_set
        { malloc_ok := true, timer_create_ok := true, sigaction_ok := true,
          timer_settime_ok := false, timer_delete_ok := false }
        { _start := none, _duration := 0 } 100).1 = true
    ∧ (TimerRpi.ifx_timer_set
        { malloc_ok := true, timer_create_ok := true, sigaction_ok := true,
          timer_settime_ok := false, timer_delete_ok := false }
        { _start := none, _duration := 0 } 100).2.2
      = { struct_live := true, os_timer_live := true } := by
  decide

/-- Claim C8 as amended: whenever `ifx_timer_set` fails, the Timer object
is left unmodified (still unarmed, no backend state attached) on all three
backends; all partially-created backend resources are released before the
error is returned on the FreeRTOS and hardware-countdown backends
unconditionally, and on the POSIX backend whenever the cleanup's
`timer_delete` itself succeeds (when that delete fails, the error is
returned with the backend struct and OS timer still allocated). -/
theorem c8_amended_set_failure_cleanup :
    (∀ (env : TimerFreertos.FreertosSetEnv) (t : TimerFreertos.ifx_timer_t) (us : Nat),
      ifx_error_check (TimerFreertos.ifx_timer_set env t us).1 = true →
        (TimerFreertos.ifx_timer_set env t us).2.1 = t
        ∧ (TimerFreertos.ifx_timer_set env t us).2.2
          = { data_live := false, sem_live := false, timer_live := false })
    ∧ (∀ (env : TimerCyhal.CyhalSetEnv) (t : TimerCyhal.ifx_timer_t) (us : Nat),
      ifx_error_check (TimerCyhal.ifx_timer_set env t us).1 = true →
        (TimerCyhal.ifx_timer_set env t us).2.1 = t
        ∧ (TimerCyhal.ifx_timer_set env t us).2.2
          = { struct_live := false, hw_timer_live := false })
    ∧ (∀ (env : TimerRpi.RpiSetEnv) (t : TimerRpi.ifx_timer_t) (us : Nat),
      ifx_error_check (TimerRpi.ifx_timer_set env t us).1 = true →
        (TimerRpi.ifx_timer_set env t us).2.1 = t
        ∧ (env.timer_delete_ok = true →
            (TimerRpi.ifx_timer_set env t us).2.2
              = { struct_live := false, os_timer_live := false })) := by
  refine ⟨?_, ?_, ?_⟩
  · intro env t us herr
    unfold TimerFreertos.ifx_timer_set at herr ⊢
    repeat' split
    all_goals first
      | exact ⟨rfl, rfl⟩
      | simp_all [IFX_SUCCESS, ifx_error_check]
  · intro env t us herr
    unfold TimerCyhal.ifx_timer_set at herr ⊢
    repeat' split
    all_goals first
      | exact ⟨rfl, rfl⟩
      | simp_all [IFX_SUCCESS, ifx_error_check]
  · intro env t us herr
    unfold TimerRpi.ifx_timer_set at herr ⊢
    repeat' split
    all_goals first
      | exact ⟨rfl, fun _ => rfl⟩
      | simp_all [IFX_SUCCESS, ifx_error_check]

/-- Witness for the amended C8: an allocation failure on each backend
releases everything (trivially, nothing was created yet) and leaves the
timer unmodified. -/
theorem c8_witness :
    ifx_error_check
      (TimerFreertos.ifx_timer_set
        { calloc_ok := false, sem_create_ok := true, timer_create_ok := true,
          timer_start_ok := true } { _start := none, _duration := 0 } 10).1 = true
    ∧ ((TimerFreertos.ifx_timer_set
        { calloc_ok := false, sem_create_ok := true, timer_create_ok := true,
          timer_start_ok := true } { _start := none, _duration := 0 } 10).2.1
      = { _start := none, _duration := 0 }
    ∧ (TimerFreertos.ifx_timer_set
        { calloc_ok := false, sem_create_ok := true, timer_create_ok := true,
          timer_start_ok := true } { _start := none, _duration := 0 } 10).2.2
      = { data_live := false, sem_live := false, timer_live := false }) :=
  ⟨by decide, c8_amended_set_failure_cleanup.1
    { calloc_ok := false, sem_create_ok := true, timer_create_ok := true,
      timer_start_ok := true } { _start := none, _duration := 0 } 10 (by decide)⟩

end OptigaNbt

namespace OptigaNbt

/-! ## Claims about the I2C transport layer -/

/-- Fetching the properties of an initialized single-layer instance
succeeds and hands out exactly the stored properties. -/
lemma get_props_initialized (properties : I2CCyHALProtocolProperties) :
    i2c_cyhal_get_protocol_properties
      { _layer_id := I2C_CYHAL_PROTOCOLLAYER_ID, _properties := some properties }
      = Except.ok properties := by
  unfold i2c_cyhal_get_protocol_properties
  simp

/-- Arming the guard timer with every OS call succeeding and a uint32-range
guard time never fails, and leaves an armed timer behind exactly when the
configured guard time is positive. -/
lemma start_guard_time_allok (properties : I2CCyHALProtocolProperties)
    (hg : properties.guard_time_us ≤ UINT32_MAX) :
    (i2c_cyhal_start_guard_time TimerRpi.rpiAllOk properties).1 = IFX_SUCCESS
    ∧ (0 < properties.guard_time_us →
        (i2c_cyhal_start_guard_time TimerRpi.rpiAllOk properties).2._guard_time_timer._start
          ≠ none) := by
  unfold i2c_cyhal_start_guard_time
  by_cases h0 : properties.guard_time_us > 0
  · rw [if_pos h0]
    unfold TimerRpi.ifx_timer_set
    rw [if_neg (Nat.not_lt.2 hg)]
    simp [TimerRpi.rpiAllOk, IFX_SUCCESS]
  · rw [if_neg h0]
    exact ⟨rfl, fun hcontra => absurd hcontra h0⟩

/-- Awaiting the guard time with no pending timer returns success at once
and leaves the properties untouched. -/
lemma await_no_pending (jr : ifx_status_t) (p : I2CCyHALProtocolProperties)
    (h : p._guard_time_timer._start = none) :
    i2c_cyhal_await_guard_time jr p = (IFX_SUCCESS, p) := by
  unfold i2c_cyhal_await_guard_time
  rw [h]

/-- Claim C9 (confirmed): whenever a guard timer is pending
(`_start != NULL`), `i2c_cyhal_await_guard_time` destroys it on every path
— join success, the not-set rewrite, or any other join error — leaving the
instance back in the Idle state (`_start = NULL`), so that a subsequent
await returns success immediately without waiting on or re-joining the
same timer. -/
theorem c9_await_resets_pending_timer (join_result : ifx_status_t)
    (properties : I2CCyHALProtocolProperties) (b : TimerRpi.posix_timer_rpi)
    (h : properties._guard_time_timer._start = some b) :
    (i2c_cyhal_await_guard_time join_result properties).2._guard_time_timer
      = { _start := none, _duration := 0 }
    ∧ ∀ jr2 : ifx_status_t,
        i2c_cyhal_await_guard_time jr2 (i2c_cyhal_await_guard_time join_result properties).2
          = (IFX_SUCCESS, (i2c_cyhal_await_guard_time join_result properties).2) := by
  have hmain : (i2c_cyhal_await_guard_time join_result properties).2._guard_time_timer
      = { _start := none, _duration := 0 } := by
    unfold i2c_cyhal_await_guard_time
    rw [h]
    simp only [rpi_destroy_eq]
    repeat' split
    all_goals rfl
  refine ⟨hmain, fun jr2 => ?_⟩
  exact await_no_pending jr2 _ (by rw [hmain])

/-- Concrete instance state with a pending guard timer, for the C9 witness. -/
def c9_props : I2CCyHALProtocolProperties :=
  { native_instance := 3, slave_address := 0x18, clock_frequency_hz := 400000,
    guard_time_us := 1000,
    _guard_time_timer :=
      { _start := some { is_timer_elapsed := true, armed := true }, _duration := 0 } }

/-- Witness for C9 at a concrete pending guard timer. -/
theorem c9_witness :
    c9_props._guard_time_timer._start = some { is_timer_elapsed := true, armed := true }
    ∧ (i2c_cyhal_await_guard_time IFX_SUCCESS c9_props).2._guard_time_timer
      = { _start := none, _duration := 0 } :=
  ⟨rfl, (c9_await_resets_pending_timer IFX_SUCCESS c9_props
    { is_timer_elapsed := true, armed := true } rfl).1⟩

/-- Claim C10 (confirmed): on an initialized instance, for every address in
0x01..0xFF, `ifx_i2c_set_slave_address` succeeds and rewrites exactly the
cached slave address (every other field of the instance state is
preserved, as the record-update equality states), and a following
`ifx_i2c_get_slave_address` hands back exactly the address that was set. -/
theorem c10_set_then_get_slave_address (properties : I2CCyHALProtocolProperties)
    (address : Nat) (h1 : 1 ≤ address) (h2 : address ≤ 0xff) :
    (ifx_i2c_set_slave_address
        { _layer_id := I2C_CYHAL_PROTOCOLLAYER_ID, _properties := some properties }
        address).1 = IFX_SUCCESS
    ∧ (ifx_i2c_set_slave_address
        { _layer_id := I2C_CYHAL_PROTOCOLLAYER_ID, _properties := some properties }
        address).2
      = { _layer_id := I2C_CYHAL_PROTOCOLLAYER_ID,
          _properties := some { properties with slave_address := address } }
    ∧ ifx_i2c_get_slave_address
        (ifx_i2c_set_slave_address
          { _layer_id := I2C_CYHAL_PROTOCOLLAYER_ID, _properties := some properties }
          address).2
      = (IFX_SUCCESS, some address) := by
  have hz : ¬(address == 0 || decide (address > 0xff)) = true := by
    simp only [Bool.or_eq_true, beq_iff_eq, decide_eq_true_eq, not_or]
    omega
  have hmod : address % 256 = address := Nat.mod_eq_of_lt (by omega)
  have hset : ifx_i2c_set_slave_address
      { _layer_id := I2C_CYHAL_PROTOCOLLAYER_ID, _properties := some properties } address
      = (IFX_SUCCESS,
        { _layer_id := I2C_CYHAL_PROTOCOLLAYER_ID,
          _properties := some { properties with slave_address := address } }) := by
    unfold ifx_i2c_set_slave_address
    rw [if_neg hz, get_props_initialized]
    rw [hmod]
  refine ⟨by rw [hset], by rw [hset], ?_⟩
  rw [hset]
  unfold ifx_i2c_get_slave_address
  rw [get_props_initialized]

/-- Concrete instance state for the C10 witness. -/
def c10_props : I2CCyHALProtocolProperties :=
  { native_instance := 3, slave_address := 0x2A, clock_frequency_hz := 400000,
    guard_time_us := 0, _guard_time_timer := { _start := none, _duration := 0 } }

/-- Witness for C10 at address 0x18. -/
theorem c10_witness :
    ((1 : Nat) ≤ 0x18 ∧ (0x18 : Nat) ≤ 0xff)
    ∧ ifx_i2c_get_slave_address
        (ifx_i2c_set_slave_address
          { _layer_id := I2C_CYHAL_PROTOCOLLAYER_ID, _properties := some c10_props }
          0x18).2
      = (IFX_SUCCESS, some 0x18) :=
  ⟨⟨by decide, by decide⟩,
    (c10_set_then_get_slave_address c10_props 0x18 (by decide) (by decide)).2.2⟩

/-- Claim C3, code-level evaluation: a fully successful
`i2c_cyhal_initialize` call (valid descriptor 3, address 0x18) installs the
default clock frequency, but `guard_time_us` is NOT set to zero — the field
is never assigned, so it keeps whatever bytes malloc handed over (here 7):
the guard-time half of the claim does not hold of the code, although the
header's own `I2C_CYHAL_DEFAULT_GUARD_TIME_US = 0` documents that intent. -/
theorem c3_guard_time_left_uninitialized :
    (i2c_cyhal_init { _layer_id := 0, _properties := none } IFX_SUCCESS true 7 9 3 0x18).1
      = IFX_SUCCESS
    ∧ (i2c_cyhal_init { _layer_id := 0, _properties := none } IFX_SUCCESS true 7 9 3 0x18).2
      = { _layer_id := I2C_CYHAL_PROTOCOLLAYER_ID,
          _properties := some {
            native_instance := 3, slave_address := 0x18,
            clock_frequency_hz := I2C_CYHAL_DEFAULT_CLOCK_FREQUENCY_HZ,
            guard_time_us := 7,
            _guard_time_timer := { _start := none, _duration := 9 } } }
    ∧ (7 : Nat) ≠ I2C_CYHAL_DEFAULT_GUARD_TIME_US := by
  refine ⟨rfl, rfl, by decide⟩

end OptigaNbt

namespace OptigaNbt

/-- Concrete instance state used by the C1 counterexample: initialized,
guard time configured to 1000 us, no guard timer currently pending. -/
def c1_props : I2CCyHALProtocolProperties :=
  { native_instance := 3, slave_address := 0x18, clock_frequency_hz := 400000,
    guard_time_us := 1000, _guard_time_timer := { _start := none, _duration := 0 } }

/-- Concrete environment used by the C1 counterexample: the device select
succeeds but `write` transfers 0 of the 4 requested bytes (a failed bus
operation); every timer OS call would succeed if reached. -/
def c1_env : TransmitEnv :=
  { join_result := IFX_SUCCESS, ioctl_ok := true, write_result := 0,
    set_env := TimerRpi.rpiAllOk }

/-- Claim C1 counterexample: a transmit call on an initialized instance
with guard time 1000 us > 0 reaches the bus-operation step (the device
select is in the trace) and the bus write fails — the call returns the
unspecified bus error with NO fresh guard timer armed: the final instance
state still has `_guard_time_timer._start = NULL` and no guard-start step
appears in the trace, contradicting "armed ... regardless of whether the
bus operation itself succeeded or failed, before the call returns". -/
theorem c1_counterexample :
    i2c_cyhal_transmit c1_env
        { _layer_id := I2C_CYHAL_PROTOCOLLAYER_ID, _properties := some c1_props }
        [0x00, 0xA4, 0x04, 0x00]
      = (IFX_ERROR LIBI2CCYHAL IFX_PROTOCOL_TRANSMIT IFX_UNSPECIFIED_ERROR,
         { _layer_id := I2C_CYHAL_PROTOCOLLAYER_ID, _properties := some c1_props },
         [BusEvent.guardAwait, BusEvent.deviceSelect 0x18])
    ∧ 0 < c1_props.guard_time_us
    ∧ c1_props._guard_time_timer._start = none := by
  refine ⟨by decide, by decide, rfl⟩

/-- Environment for the C1 witness's transmit: every OS call succeeds and
the full 4-byte write goes through. -/
def c1_env_ok : TransmitEnv :=
  { join_result := IFX_SUCCESS, ioctl_ok := true, write_result := 4,
    set_env := TimerRpi.rpiAllOk }

/-- Environment for the C1 witness's receive: every OS call succeeds and
the bus yields the expected 2 bytes. -/
def c1_recv_env : ReceiveEnv :=
  { join_result := IFX_SUCCESS, malloc_ok := true, ioctl_ok := true,
    read_result := 2, set_env := TimerRpi.rpiAllOk }

/-- Environment for the C1 witness's arming-failure receive: the bus
operation succeeds but the malloc inside the guard-timer set fails. -/
def c1_recv_env_arm_fail : ReceiveEnv :=
  { join_result := IFX_SUCCESS, malloc_ok := true, ioctl_ok := true,
    read_result := 2,
    set_env := { malloc_ok := false, timer_create_ok := true,
                 sigaction_ok := true, timer_settime_ok := true,
                 timer_delete_ok := true } }

/-- Every error `ifx_timer_set` of timer-rpi.c can return carries module
LIB_TIMER and function IFX_TIMER_SET. -/
lemma rpi_set_error_shape (env : TimerRpi.RpiSetEnv) (t : TimerRpi.ifx_timer_t)
    (us : Nat) :
    (TimerRpi.ifx_timer_set env t us).1 = IFX_SUCCESS
    ∨ ∃ r, (TimerRpi.ifx_timer_set env t us).1 = IFX_ERROR LIB_TIMER IFX_TIMER_SET r := by
  unfold TimerRpi.ifx_timer_set
  repeat' split
  all_goals first
    | exact Or.inl rfl
    | exact Or.inr ⟨_, rfl⟩

/-- When arming the guard timer fails, the reported status carries module
LIB_TIMER and function IFX_TIMER_SET (it comes out of `ifx_timer_set`). -/
lemma start_guard_time_error_shape (set_env : TimerRpi.RpiSetEnv)
    (properties : I2CCyHALProtocolProperties)
    (h : ifx_error_check (i2c_cyhal_start_guard_time set_env properties).1 = true) :
    ∃ r, (i2c_cyhal_start_guard_time set_env properties).1
      = IFX_ERROR LIB_TIMER IFX_TIMER_SET r := by
  by_cases hg : properties.guard_time_us > 0
  · have heq : (i2c_cyhal_start_guard_time set_env properties).1
        = (TimerRpi.ifx_timer_set set_env
            (TimerRpi.ifx_timer_destroy properties._guard_time_timer)
            properties.guard_time_us).1 := by
      unfold i2c_cyhal_start_guard_time
      simp only []
      rw [if_pos hg]
    rw [heq] at h ⊢
    rcases rpi_set_error_shape set_env
        (TimerRpi.ifx_timer_destroy properties._guard_time_timer)
        properties.guard_time_us with hs | ⟨r, hr⟩
    · rw [hs] at h
      exact absurd h (by decide)
    · exact ⟨r, hr⟩
  · have heq : (i2c_cyhal_start_guard_time set_env properties).1 = IFX_SUCCESS := by
      unfold i2c_cyhal_start_guard_time
      simp only []
      rw [if_neg hg]
    rw [heq] at h
    exact absurd h (by decide)

/-- The guard-time await never changes the configured guard duration. -/
lemma await_preserves_guard_time_us (jr : ifx_status_t)
    (properties : I2CCyHALProtocolProperties) :
    (i2c_cyhal_await_guard_time jr properties).2.guard_time_us
      = properties.guard_time_us := by
  unfold i2c_cyhal_await_guard_time
  simp only []
  repeat' split
  all_goals rfl

/-- Claim C1 as amended: for both transmit and receive on an initialized
instance with the guard await passing, a fresh guard timer for the
configured guard duration is armed before the call returns exactly when
the bus operation succeeds. Conjuncts: (1) a successful device select and
full write make transmit return success with the guard-start step for the
configured duration in its trace and, for a positive guard time, an armed
backend timer in the final instance state; (2) a failed device select or
short/failed write makes transmit return the unspecified bus error with
no guard-start step in the trace; (3) and (4) state the same two facts
for receive (successful read versus failed device select or read error);
(5) and (6): when the bus operation succeeded but the arming itself
fails, transmit respectively receive return the arming error — module
LIB_TIMER, function IFX_TIMER_SET — which is distinct from the
unspecified bus error. -/
theorem c1_guard_armed_only_on_bus_success :
    (∀ (env : TransmitEnv) (properties : I2CCyHALProtocolProperties) (data : List Nat),
        data ≠ [] → data.length ≤ UINT32_MAX →
        properties.guard_time_us ≤ UINT32_MAX →
        ifx_error_check (i2c_cyhal_await_guard_time env.join_result properties).1 = false →
        env.set_env = TimerRpi.rpiAllOk →
        env.ioctl_ok = true → env.write_result = (data.length : Int) →
        (i2c_cyhal_transmit env
            { _layer_id := I2C_CYHAL_PROTOCOLLAYER_ID, _properties := some properties }
            data).1 = IFX_SUCCESS
        ∧ BusEvent.guardStart
            (i2c_cyhal_await_guard_time env.join_result properties).2.guard_time_us
          ∈ (i2c_cyhal_transmit env
              { _layer_id := I2C_CYHAL_PROTOCOLLAYER_ID, _properties := some properties }
              data).2.2
        ∧ (0 < properties.guard_time_us →
            ∃ p', (i2c_cyhal_transmit env
                { _layer_id := I2C_CYHAL_PROTOCOLLAYER_ID, _properties := some properties }
                data).2.1._properties = some p'
              ∧ p'._guard_time_timer._start ≠ none))
    ∧ (∀ (env : TransmitEnv) (properties : I2CCyHALProtocolProperties) (data : List Nat),
        data ≠ [] → data.length ≤ UINT32_MAX →
        ifx_error_check (i2c_cyhal_await_guard_time env.join_result properties).1 = false →
        env.ioctl_ok = false ∨ env.write_result ≠ (data.length : Int) →
        (i2c_cyhal_transmit env
            { _layer_id := I2C_CYHAL_PROTOCOLLAYER_ID, _properties := some properties }
            data).1 = IFX_ERROR LIBI2CCYHAL IFX_PROTOCOL_TRANSMIT IFX_UNSPECIFIED_ERROR
        ∧ ∀ us, BusEvent.guardStart us
            ∉ (i2c_cyhal_transmit env
                { _layer_id := I2C_CYHAL_PROTOCOLLAYER_ID, _properties := some properties }
                data).2.2)
    ∧ (∀ (env : ReceiveEnv) (properties : I2CCyHALProtocolProperties) (expected_len : Nat),
        1 ≤ expected_len → expected_len ≤ UINT32_MAX →
        properties.guard_time_us ≤ UINT32_MAX →
        ifx_error_check (i2c_cyhal_await_guard_time env.join_result properties).1 = false →
        env.malloc_ok = true → env.ioctl_ok = true → env.read_result ≠ -1 →
        env.set_env = TimerRpi.rpiAllOk →
        (i2c_cyhal_receive env
            { _layer_id := I2C_CYHAL_PROTOCOLLAYER_ID, _properties := some properties }
            expected_len).1 = IFX_SUCCESS
        ∧ BusEvent.guardStart
            (i2c_cyhal_await_guard_time env.join_result properties).2.guard_time_us
          ∈ (i2c_cyhal_receive env
              { _layer_id := I2C_CYHAL_PROTOCOLLAYER_ID, _properties := some properties }
              expected_len).2.2.2.2
        ∧ (0 < properties.guard_time_us →
            ∃ p', (i2c_cyhal_receive env
                { _layer_id := I2C_CYHAL_PROTOCOLLAYER_ID, _properties := some properties }
                expected_len).2.1._properties = some p'
              ∧ p'._guard_time_timer._start ≠ none))
    ∧ (∀ (env : ReceiveEnv) (properties : I2CCyHALProtocolProperties) (expected_len : Nat),
        1 ≤ expected_len → expected_len ≤ UINT32_MAX →
        ifx_error_check (i2c_cyhal_await_guard_time env.join_result properties).1 = false →
        env.malloc_ok = true →
        env.ioctl_ok = false ∨ env.read_result = -1 →
        (i2c_cyhal_receive env
            { _layer_id := I2C_CYHAL_PROTOCOLLAYER_ID, _properties := some properties }
            expected_len).1 = IFX_ERROR LIBI2CCYHAL IFX_PROTOCOL_TRANSMIT IFX_UNSPECIFIED_ERROR
        ∧ ∀ us, BusEvent.guardStart us
            ∉ (i2c_cyhal_receive env
                { _layer_id := I2C_CYHAL_PROTOCOLLAYER_ID, _properties := some properties }
                expected_len).2.2.2.2)
    ∧ (∀ (env : TransmitEnv) (properties : I2CCyHALProtocolProperties) (data : List Nat),
        data ≠ [] → data.length ≤ UINT32_MAX →
        ifx_error_check (i2c_cyhal_await_guard_time env.join_result properties).1 = false →
        env.ioctl_ok = true → env.write_result = (data.length : Int) →
        ifx_error_check (i2c_cyhal_start_guard_time env.set_env
          (i2c_cyhal_await_guard_time env.join_result properties).2).1 = true →
        (i2c_cyhal_transmit env
            { _layer_id := I2C_CYHAL_PROTOCOLLAYER_ID, _properties := some properties }
            data).1
          = (i2c_cyhal_start_guard_time env.set_env
              (i2c_cyhal_await_guard_time env.join_result properties).2).1
        ∧ (∃ r, (i2c_cyhal_transmit env
              { _layer_id := I2C_CYHAL_PROTOCOLLAYER_ID, _properties := some properties }
              data).1 = IFX_ERROR LIB_TIMER IFX_TIMER_SET r)
        ∧ (i2c_cyhal_transmit env
            { _layer_id := I2C_CYHAL_PROTOCOLLAYER_ID, _properties := some properties }
            data).1 ≠ IFX_ERROR LIBI2CCYHAL IFX_PROTOCOL_TRANSMIT IFX_UNSPECIFIED_ERROR)
    ∧ (∀ (env : ReceiveEnv) (properties : I2CCyHALProtocolProperties) (expected_len : Nat),
        1 ≤ expected_len → expected_len ≤ UINT32_MAX →
        ifx_error_check (i2c_cyhal_await_guard_time env.join_result properties).1 = false →
        env.malloc_ok = true → env.ioctl_ok = true → env.read_result ≠ -1 →
        ifx_error_check (i2c_cyhal_start_guard_time env.set_env
          (i2c_cyhal_await_guard_time env.join_result properties).2).1 = true →
        (i2c_cyhal_receive env
            { _layer_id := I2C_CYHAL_PROTOCOLLAYER_ID, _properties := some properties }
            expected_len).1
          = (i2c_cyhal_start_guard_time env.set_env
              (i2c_cyhal_await_guard_time env.join_result properties).2).1
        ∧ (∃ r, (i2c_cyhal_receive env
              { _layer_id := I2C_CYHAL_PROTOCOLLAYER_ID, _properties := some properties }
              expected_len).1 = IFX_ERROR LIB_TIMER IFX_TIMER_SET r)
        ∧ (i2c_cyhal_receive env
            { _layer_id := I2C_CYHAL_PROTOCOLLAYER_ID, _properties := some properties }
            expected_len).1
          ≠ IFX_ERROR LIBI2CCYHAL IFX_PROTOCOL_TRANSMIT IFX_UNSPECIFIED_ERROR) := by
  have tval : ∀ (data : List Nat), data ≠ [] → data.length ≤ UINT32_MAX →
      ¬(data.length == 0 || decide (data.length > UINT32_MAX)) = true := by
    intro data hd hlen
    simp only [Bool.or_eq_true, beq_iff_eq, decide_eq_true_eq, not_or]
    exact ⟨fun hcontra => hd (List.length_eq_zero.1 hcontra), Nat.not_lt.2 hlen⟩
  have rval : ∀ (expected_len : Nat), 1 ≤ expected_len → expected_len ≤ UINT32_MAX →
      ¬(expected_len == 0 || decide (expected_len > UINT32_MAX)
        || expected_len == IFX_PROTOCOL_RECEIVE_LEN_UNKOWN) = true := by
    intro expected_len h1 h2
    simp only [Bool.or_eq_true, beq_iff_eq, decide_eq_true_eq, not_or]
    refine ⟨⟨by omega, Nat.not_lt.2 h2⟩, ?_⟩
    have : UINT32_MAX < IFX_PROTOCOL_RECEIVE_LEN_UNKOWN := by decide
    omega
  refine ⟨?_, ?_, ?_, ?_, ?_, ?_⟩
  · intro env properties data hd hlen hg hawait hset hio hwr
    have hval := tval data hd hlen
    have hstart := start_guard_time_allok
      (i2c_cyhal_await_guard_time env.join_result properties).2
      (by rw [await_preserves_guard_time_us]; exact hg)
    simp only [i2c_cyhal_transmit, hval, get_props_initialized, hawait, hio, hwr, hset,
      if_neg, Bool.false_eq_true, Bool.not_true, bne_self_eq_false, if_false,
      reduceCtorEq, ite_false, ite_true]
    rw [if_neg (by simp [hstart.1, ifx_error_check, IFX_SUCCESS])]
    refine ⟨?_, ?_, fun hpos => ?_⟩
    · rfl
    · simp
    · exact ⟨_, rfl, hstart.2 (by rw [await_preserves_guard_time_us]; exact hpos)⟩
  · intro env properties data hd hlen hawait hfail
    have hval := tval data hd hlen
    rcases hfail with hio | hwr
    · simp only [i2c_cyhal_transmit, hval, get_props_initialized, hawait, hio,
        Bool.false_eq_true, Bool.not_false, if_true, if_false, ite_true, ite_false]
      refine ⟨?_, fun us => ?_⟩
      · first
        | rfl
        | trivial
      · simp
    · have hbne : (env.write_result != (data.length : Int)) = true := by
        simp [hwr]
      by_cases hio : env.ioctl_ok = true
      · simp only [i2c_cyhal_transmit, hval, get_props_initialized, hawait, hio, hbne,
          Bool.not_true, Bool.false_eq_true, if_false, if_true, ite_true, ite_false]
        refine ⟨?_, fun us => ?_⟩
        · first
          | rfl
          | trivial
        · simp
      · have hio' : env.ioctl_ok = false := by
          cases hh : env.ioctl_ok
          · rfl
          · exact absurd hh hio
        simp only [i2c_cyhal_transmit, hval, get_props_initialized, hawait, hio',
          Bool.false_eq_true, Bool.not_false, if_true, if_false, ite_true, ite_false]
        refine ⟨?_, fun us => ?_⟩
        · first
          | rfl
          | trivial
        · simp
  · intro env properties expected_len h1 h2 hg hawait hmalloc hioctl hread hset
    have hval := rval expected_len h1 h2
    have hstart := start_guard_time_allok
      (i2c_cyhal_await_guard_time env.join_result properties).2
      (by rw [await_preserves_guard_time_us]; exact hg)
    have hbeq : (env.read_result == -1) = false := by
      simp [hread]
    simp only [i2c_cyhal_receive, hval, get_props_initialized, hawait, hmalloc, hioctl,
      hbeq, hset, Bool.false_eq_true, Bool.not_true, if_false, if_true, ite_true,
      ite_false, reduceCtorEq]
    rw [if_neg (by simp [hstart.1, ifx_error_check, IFX_SUCCESS])]
    refine ⟨?_, ?_, fun hpos => ?_⟩
    · rfl
    · simp
    · exact ⟨_, rfl, hstart.2 (by rw [await_preserves_guard_time_us]; exact hpos)⟩
  · intro env properties expected_len h1 h2 hawait hmalloc hfail
    have hval := rval expected_len h1 h2
    rcases hfail with hio | hread
    · simp only [i2c_cyhal_receive, hval, get_props_initialized, hawait, hmalloc, hio,
        Bool.false_eq_true, Bool.not_false, if_true, if_false, ite_true, ite_false]
      refine ⟨?_, fun us => ?_⟩
      · rfl
      · simp
    · have hbeq : (env.read_result == -1) = true := by
        simp [hread]
      by_cases hio : env.ioctl_ok = true
      · simp only [i2c_cyhal_receive, hval, get_props_initialized, hawait, hmalloc,
          hio, hbeq, Bool.not_true, Bool.false_eq_true, if_false, if_true, ite_true,
          ite_false]
        refine ⟨?_, fun us => ?_⟩
        · first
          | rfl
          | trivial
        · simp
      · have hio' : env.ioctl_ok = false := by
          cases hh : env.ioctl_ok
          · rfl
          · exact absurd hh hio
        simp only [i2c_cyhal_receive, hval, get_props_initialized, hawait, hmalloc,
          hio', Bool.false_eq_true, Bool.not_false, if_true, if_false, ite_true,
          ite_false]
        refine ⟨?_, fun us => ?_⟩
        · rfl
        · simp
  · intro env properties data hd hlen hawait hio hwr hfailarm
    have hval := tval data hd hlen
    obtain ⟨r, hr⟩ := start_guard_time_error_shape env.set_env
      (i2c_cyhal_await_guard_time env.join_result properties).2 hfailarm
    simp only [i2c_cyhal_transmit, hval, get_props_initialized, hawait, hio, hwr,
      Bool.false_eq_true, Bool.not_true, bne_self_eq_false, if_false, reduceCtorEq,
      ite_false, ite_true]
    rw [if_pos hfailarm]
    refine ⟨?_, ⟨r, hr⟩, ?_⟩
    · rfl
    · rw [hr]
      simp [IFX_ERROR, LIB_TIMER, LIBI2CCYHAL, IFX_TIMER_SET, IFX_PROTOCOL_TRANSMIT]
  · intro env properties expected_len h1 h2 hawait hmalloc hioctl hread hfailarm
    have hval := rval expected_len h1 h2
    obtain ⟨r, hr⟩ := start_guard_time_error_shape env.set_env
      (i2c_cyhal_await_guard_time env.join_result properties).2 hfailarm
    have hbeq : (env.read_result == -1) = false := by
      simp [hread]
    simp only [i2c_cyhal_receive, hval, get_props_initialized, hawait, hmalloc, hioctl,
      hbeq, Bool.false_eq_true, Bool.not_true, if_false, if_true, ite_true, ite_false,
      reduceCtorEq]
    rw [if_pos hfailarm]
    refine ⟨?_, ⟨r, hr⟩, ?_⟩
    · rfl
    · rw [hr]
      simp [IFX_ERROR, LIB_TIMER, LIBI2CCYHAL, IFX_TIMER_SET, IFX_PROTOCOL_TRANSMIT]

/-- Witness for the amended C1: a fully successful 4-byte transmit and a
fully successful 2-byte receive on an instance with guard time 1000 us
both arm a fresh guard timer, and a receive whose arming fails (malloc
inside the timer set fails) reports the LIB_TIMER arming error, distinct
from the unspecified bus error. -/
theorem c1_witness :
    ([0x00, 0xA4, 0x04, 0x00] : List Nat) ≠ []
    ∧ ((i2c_cyhal_transmit c1_env_ok
        { _layer_id := I2C_CYHAL_PROTOCOLLAYER_ID, _properties := some c1_props }
        [0x00, 0xA4, 0x04, 0x00]).1 = IFX_SUCCESS
      ∧ BusEvent.guardStart
          (i2c_cyhal_await_guard_time IFX_SUCCESS c1_props).2.guard_time_us
        ∈ (i2c_cyhal_transmit c1_env_ok
            { _layer_id := I2C_CYHAL_PROTOCOLLAYER_ID, _properties := some c1_props }
            [0x00, 0xA4, 0x04, 0x00]).2.2
      ∧ (0 < c1_props.guard_time_us →
          ∃ p', (i2c_cyhal_transmit c1_env_ok
              { _layer_id := I2C_CYHAL_PROTOCOLLAYER_ID, _properties := some c1_props }
              [0x00, 0xA4, 0x04, 0x00]).2.1._properties = some p'
            ∧ p'._guard_time_timer._start ≠ none))
    ∧ ((i2c_cyhal_receive c1_recv_env
        { _layer_id := I2C_CYHAL_PROTOCOLLAYER_ID, _properties := some c1_props } 2).1
        = IFX_SUCCESS
      ∧ (0 < c1_props.guard_time_us →
          ∃ p', (i2c_cyhal_receive c1_recv_env
              { _layer_id := I2C_CYHAL_PROTOCOLLAYER_ID, _properties := some c1_props }
              2).2.1._properties = some p'
            ∧ p'._guard_time_timer._start ≠ none))
    ∧ ((i2c_cyhal_receive c1_recv_env_arm_fail
        { _layer_id := I2C_CYHAL_PROTOCOLLAYER_ID, _properties := some c1_props } 2).1
        = IFX_ERROR LIB_TIMER IFX_TIMER_SET IFX_OUT_OF_MEMORY
      ∧ (i2c_cyhal_receive c1_recv_env_arm_fail
          { _layer_id := I2C_CYHAL_PROTOCOLLAYER_ID, _properties := some c1_props } 2).1
        ≠ IFX_ERROR LIBI2CCYHAL IFX_PROTOCOL_TRANSMIT IFX_UNSPECIFIED_ERROR) := by
  have h1 := c1_guard_armed_only_on_bus_success.1 c1_env_ok
    c1_props [0x00, 0xA4, 0x04, 0x00]
    (by decide) (by decide) (by decide) (by decide) rfl rfl (by decide)
  have h3 := c1_guard_armed_only_on_bus_success.2.2.1 c1_recv_env
    c1_props 2 (by decide) (by decide) (by decide) (by decide) rfl rfl (by decide) rfl
  have h6 := c1_guard_armed_only_on_bus_success.2.2.2.2.2 c1_recv_env_arm_fail
    c1_props 2 (by decide) (by decide) (by decide) rfl rfl (by decide) (by decide)
  exact ⟨by decide, ⟨h1.1, h1.2.1, h1.2.2⟩, ⟨h3.1, h3.2.2⟩, ⟨by decide, h6.2.2⟩⟩

end OptigaNbt

namespace OptigaNbt

/-- Concrete instance state used by the C4 counterexample (guard-time
policy disabled so that only the read behaviour is in play). -/
def c4_props : I2CCyHALProtocolProperties :=
  { native_instance := 3, slave_address := 0x18, clock_frequency_hz := 400000,
    guard_time_us := 0, _guard_time_timer := { _start := none, _duration := 0 } }

/-- Concrete environment used by the C4 counterexample: the bus yields
only 3 of the 5 expected bytes (a short read, not a read error). -/
def c4_env : ReceiveEnv :=
  { join_result := IFX_SUCCESS, malloc_ok := true, ioctl_ok := true,
    read_result := 3, set_env := TimerRpi.rpiAllOk }

/-- Claim C4 counterexample: `receive` with `expected_len = 5` on a bus
that yields only 3 bytes does NOT free the buffer, NULL the response and
return the unspecified bus error — it returns plain success with the
5-byte buffer still handed out and `*response_len = 5` (the code only
checks `read(...) == -1`, and its own TODO records that a short read is
not made an error). -/
theorem c4_counterexample :
    i2c_cyhal_receive c4_env
        { _layer_id := I2C_CYHAL_PROTOCOLLAYER_ID, _properties := some c4_props } 5
      = (IFX_SUCCESS,
         { _layer_id := I2C_CYHAL_PROTOCOLLAYER_ID, _properties := some c4_props },
         some 5, some 5,
         [BusEvent.guardAwait, BusEvent.deviceSelect 0x18, BusEvent.busRead 3,
          BusEvent.guardStart 0])
    ∧ (3 : Int) < 5 := by
  refine ⟨by decide, by decide⟩

/-- Claim C4 as amended: on an initialized instance with a valid
`expected_len` (guard await passing, buffer allocation and device select
succeeding, timer OS calls succeeding, uint32-range guard time):
a bus that yields exactly `expected_len` bytes makes `receive` return
success with an `expected_len`-byte buffer and `*response_len =
expected_len`; a read that REPORTS AN ERROR (returns -1) makes `receive`
free the buffer, NULL the response pointer, zero `*response_len` and
return the unspecified bus error; but a read that yields fewer bytes
without reporting an error is not detected — `receive` still returns
success and still reports `*response_len = expected_len`. -/
theorem c4_receive_read_paths (env : ReceiveEnv)
    (properties : I2CCyHALProtocolProperties) (expected_len : Nat)
    (h1 : 1 ≤ expected_len) (h2 : expected_len ≤ UINT32_MAX)
    (hg : properties.guard_time_us ≤ UINT32_MAX)
    (hawait : ifx_error_check
      (i2c_cyhal_await_guard_time env.join_result properties).1 = false)
    (hmalloc : env.malloc_ok = true) (hioctl : env.ioctl_ok = true)
    (hset : env.set_env = TimerRpi.rpiAllOk) :
    (env.read_result = -1 →
        (i2c_cyhal_receive env
            { _layer_id := I2C_CYHAL_PROTOCOLLAYER_ID, _properties := some properties }
            expected_len).1
          = IFX_ERROR LIBI2CCYHAL IFX_PROTOCOL_TRANSMIT IFX_UNSPECIFIED_ERROR
        ∧ (i2c_cyhal_receive env
            { _layer_id := I2C_CYHAL_PROTOCOLLAYER_ID, _properties := some properties }
            expected_len).2.2.1 = none
        ∧ (i2c_cyhal_receive env
            { _layer_id := I2C_CYHAL_PROTOCOLLAYER_ID, _properties := some properties }
            expected_len).2.2.2.1 = some 0)
    ∧ (env.read_result ≠ -1 →
        (i2c_cyhal_receive env
            { _layer_id := I2C_CYHAL_PROTOCOLLAYER_ID, _properties := some properties }
            expected_len).1 = IFX_SUCCESS
        ∧ (i2c_cyhal_receive env
            { _layer_id := I2C_CYHAL_PROTOCOLLAYER_ID, _properties := some properties }
            expected_len).2.2.1 = some expected_len
        ∧ (i2c_cyhal_receive env
            { _layer_id := I2C_CYHAL_PROTOCOLLAYER_ID, _properties := some properties }
            expected_len).2.2.2.1 = some expected_len) := by
  have hval : ¬(expected_len == 0 || decide (expected_len > UINT32_MAX)
      || expected_len == IFX_PROTOCOL_RECEIVE_LEN_UNKOWN) = true := by
    simp only [Bool.or_eq_true, beq_iff_eq, decide_eq_true_eq, not_or]
    refine ⟨⟨by omega, Nat.not_lt.2 h2⟩, ?_⟩
    have : UINT32_MAX < IFX_PROTOCOL_RECEIVE_LEN_UNKOWN := by decide
    omega
  have hgq : (i2c_cyhal_await_guard_time env.join_result properties).2.guard_time_us
      = properties.guard_time_us := by
    unfold i2c_cyhal_await_guard_time
    simp only []
    repeat' split
    all_goals rfl
  have hstart := start_guard_time_allok
    (i2c_cyhal_await_guard_time env.join_result properties).2 (by rw [hgq]; exact hg)
  constructor
  · intro hread
    simp only [i2c_cyhal_receive, hval, get_props_initialized, hawait, hmalloc, hioctl,
      hread, Bool.false_eq_true, Bool.not_true, if_false, if_true, ite_true, ite_false,
      beq_self_eq_true, reduceCtorEq]
    exact ⟨by trivial, by trivial, by trivial⟩
  · intro hread
    have hbeq : (env.read_result == -1) = false := by
      simp [hread]
    simp only [i2c_cyhal_receive, hval, get_props_initialized, hawait, hmalloc, hioctl,
      hbeq, hset, Bool.false_eq_true, Bool.not_true, if_false, if_true, ite_true,
      ite_false, reduceCtorEq]
    rw [if_neg (by simp [hstart.1, ifx_error_check, IFX_SUCCESS])]
    exact ⟨by trivial, by trivial, by trivial⟩

/-- Witness for the amended C4: a read error (-1) at `expected_len = 5`
frees the buffer, NULLs the response and zeroes the length. -/
theorem c4_witness :
    (({ join_result := IFX_SUCCESS, malloc_ok := true, ioctl_ok := true,
        read_result := -1, set_env := TimerRpi.rpiAllOk } : ReceiveEnv).read_result
      = (-1 : Int))
    ∧ ((i2c_cyhal_receive
        { join_result := IFX_SUCCESS, malloc_ok := true, ioctl_ok := true,
          read_result := -1, set_env := TimerRpi.rpiAllOk }
        { _layer_id := I2C_CYHAL_PROTOCOLLAYER_ID, _properties := some c4_props } 5).1
      = IFX_ERROR LIBI2CCYHAL IFX_PROTOCOL_TRANSMIT IFX_UNSPECIFIED_ERROR
    ∧ (i2c_cyhal_receive
        { join_result := IFX_SUCCESS, malloc_ok := true, ioctl_ok := true,
          read_result := -1, set_env := TimerRpi.rpiAllOk }
        { _layer_id := I2C_CYHAL_PROTOCOLLAYER_ID, _properties := some c4_props } 5).2.2.1
      = none
    ∧ (i2c_cyhal_receive
        { join_result := IFX_SUCCESS, malloc_ok := true, ioctl_ok := true,
          read_result := -1, set_env := TimerRpi.rpiAllOk }
        { _layer_id := I2C_CYHAL_PROTOCOLLAYER_ID, _properties := some c4_props } 5).2.2.2.1
      = some 0) :=
  ⟨rfl,
    (c4_receive_read_paths
      { join_result := IFX_SUCCESS, malloc_ok := true, ioctl_ok := true,
        read_result := -1, set_env := TimerRpi.rpiAllOk }
      c4_props 5 (by decide) (by decide) (by decide) (by decide) rfl rfl rfl).1 rfl⟩

end OptigaNbt

namespace OptigaNbt

/-- The trace of every transmit call is either empty (validation or
property-lookup failure, before any bus interaction) or starts with the
guard-time await. -/
lemma transmit_trace_shape (env : TransmitEnv) (self : ifx_protocol_t)
    (data : List Nat) :
    (i2c_cyhal_transmit env self data).2.2 = []
    ∨ ∃ tl, (i2c_cyhal_transmit env self data).2.2 = BusEvent.guardAwait :: tl := by
  unfold i2c_cyhal_transmit
  simp only []
  repeat' split
  all_goals first
    | exact Or.inl rfl
    | exact Or.inr ⟨_, rfl⟩

/-- The trace of every receive call is either empty or starts with the
guard-time await. -/
lemma receive_trace_shape (env : ReceiveEnv) (self : ifx_protocol_t)
    (expected_len : Nat) :
    (i2c_cyhal_receive env self expected_len).2.2.2.2 = []
    ∨ ∃ tl, (i2c_cyhal_receive env self expected_len).2.2.2.2
        = BusEvent.guardAwait :: tl := by
  unfold i2c_cyhal_receive
  simp only []
  repeat' split
  all_goals first
    | exact Or.inl rfl
    | exact Or.inr ⟨_, rfl⟩

/-- A pending guard timer joined with the not-set error triple is treated
as success by the guard-time await. -/
lemma await_not_set_is_success (properties : I2CCyHALProtocolProperties)
    (b : TimerRpi.posix_timer_rpi)
    (h : properties._guard_time_timer._start = some b) :
    (i2c_cyhal_await_guard_time
      (IFX_ERROR LIB_TIMER IFX_TIMER_JOIN IFX_TIMER_NOT_SET) properties).1
      = IFX_SUCCESS := by
  unfold i2c_cyhal_await_guard_time
  rw [h]
  simp [ifx_error_check, IFX_ERROR, ifx_error_get_module, ifx_error_get_function,
    ifx_error_get_reason]

/-- A pending guard timer joined with any error other than the not-set
triple propagates that error out of the guard-time await. -/
lemma await_error_propagates (properties : I2CCyHALProtocolProperties)
    (b : TimerRpi.posix_timer_rpi) (m f r : Nat)
    (h : properties._guard_time_timer._start = some b)
    (hne : ¬(m = LIB_TIMER ∧ f = IFX_TIMER_JOIN ∧ r = IFX_TIMER_NOT_SET)) :
    (i2c_cyhal_await_guard_time (IFX_ERROR m f r) properties).1
      = IFX_ERROR m f r := by
  unfold i2c_cyhal_await_guard_time
  rw [h]
  have hcond : (m == LIB_TIMER && f == IFX_TIMER_JOIN && r == IFX_TIMER_NOT_SET)
      = false := by
    cases hmb : (m == LIB_TIMER && f == IFX_TIMER_JOIN && r == IFX_TIMER_NOT_SET)
    · rfl
    · exact absurd (by simpa [and_assoc] using hmb) hne
  simp [ifx_error_check, IFX_ERROR, ifx_error_get_module, ifx_error_get_function,
    ifx_error_get_reason, hcond]

/-- Claim C2 (confirmed): in every transmit and every receive call, the
guard-time await strictly precedes the device select (and hence the byte
transfer that follows it): any trace containing a device-select step
starts with the guard-await step. A pending guard timer whose join
reports the distinct not-set triple is treated as success, while a
pending guard timer whose join reports any other error makes the call —
transmit (conjunct 5) and receive (conjunct 6) alike — propagate exactly
that error to the caller without touching the bus (no device-select step
occurs). -/
theorem c2_guard_await_precedes_bus_and_not_set_success :
    (∀ (env : TransmitEnv) (self : ifx_protocol_t) (data : List Nat) (addr : Nat),
        BusEvent.deviceSelect addr ∈ (i2c_cyhal_transmit env self data).2.2 →
        ∃ tl, (i2c_cyhal_transmit env self data).2.2 = BusEvent.guardAwait :: tl)
    ∧ (∀ (env : ReceiveEnv) (self : ifx_protocol_t) (expected_len addr : Nat),
        BusEvent.deviceSelect addr ∈ (i2c_cyhal_receive env self expected_len).2.2.2.2 →
        ∃ tl, (i2c_cyhal_receive env self expected_len).2.2.2.2
          = BusEvent.guardAwait :: tl)
    ∧ (∀ (properties : I2CCyHALProtocolProperties) (b : TimerRpi.posix_timer_rpi),
        properties._guard_time_timer._start = some b →
        (i2c_cyhal_await_guard_time
          (IFX_ERROR LIB_TIMER IFX_TIMER_JOIN IFX_TIMER_NOT_SET) properties).1
          = IFX_SUCCESS)
    ∧ (∀ (properties : I2CCyHALProtocolProperties) (b : TimerRpi.posix_timer_rpi)
          (m f r : Nat),
        properties._guard_time_timer._start = some b →
        ¬(m = LIB_TIMER ∧ f = IFX_TIMER_JOIN ∧ r = IFX_TIMER_NOT_SET) →
        (i2c_cyhal_await_guard_time (IFX_ERROR m f r) properties).1 = IFX_ERROR m f r)
    ∧ (∀ (env : TransmitEnv) (properties : I2CCyHALProtocolProperties)
          (data : List Nat) (m f r : Nat),
        data ≠ [] → data.length ≤ UINT32_MAX →
        properties._guard_time_timer._start ≠ none →
        env.join_result = IFX_ERROR m f r →
        ¬(m = LIB_TIMER ∧ f = IFX_TIMER_JOIN ∧ r = IFX_TIMER_NOT_SET) →
        (i2c_cyhal_transmit env
            { _layer_id := I2C_CYHAL_PROTOCOLLAYER_ID, _properties := some properties }
            data).1 = IFX_ERROR m f r
        ∧ ∀ a : Nat, BusEvent.deviceSelect a
            ∉ (i2c_cyhal_transmit env
                { _layer_id := I2C_CYHAL_PROTOCOLLAYER_ID, _properties := some properties }
                data).2.2)
    ∧ (∀ (env : ReceiveEnv) (properties : I2CCyHALProtocolProperties)
          (expected_len m f r : Nat),
        1 ≤ expected_len → expected_len ≤ UINT32_MAX →
        properties._guard_time_timer._start ≠ none →
        env.join_result = IFX_ERROR m f r →
        ¬(m = LIB_TIMER ∧ f = IFX_TIMER_JOIN ∧ r = IFX_TIMER_NOT_SET) →
        (i2c_cyhal_receive env
            { _layer_id := I2C_CYHAL_PROTOCOLLAYER_ID, _properties := some properties }
            expected_len).1 = IFX_ERROR m f r
        ∧ ∀ a : Nat, BusEvent.deviceSelect a
            ∉ (i2c_cyhal_receive env
                { _layer_id := I2C_CYHAL_PROTOCOLLAYER_ID, _properties := some properties }
                expected_len).2.2.2.2) := by
  refine ⟨?_, ?_, ?_, ?_, ?_, ?_⟩
  · intro env self data addr hmem
    rcases transmit_trace_shape env self data with h | h
    · rw [h] at hmem
      simp at hmem
    · exact h
  · intro env self expected_len addr hmem
    rcases receive_trace_shape env self expected_len with h | h
    · rw [h] at hmem
      simp at hmem
    · exact h
  · intro properties b h
    exact await_not_set_is_success properties b h
  · intro properties b m f r h hne
    exact await_error_propagates properties b m f r h hne
  · intro env properties data m f r hd hlen hpend hjr hne
    obtain ⟨b, hb⟩ := Option.ne_none_iff_exists'.1 hpend
    have haw : (i2c_cyhal_await_guard_time env.join_result properties).1
        = IFX_ERROR m f r := by
      rw [hjr]
      exact await_error_propagates properties b m f r hb hne
    have hval : ¬(data.length == 0 || decide (data.length > UINT32_MAX)) = true := by
      simp only [Bool.or_eq_true, beq_iff_eq, decide_eq_true_eq, not_or]
      exact ⟨fun hcontra => hd (List.length_eq_zero.1 hcontra), Nat.not_lt.2 hlen⟩
    simp only [i2c_cyhal_transmit, hval, get_props_initialized, haw,
      Bool.false_eq_true, if_false, ite_false, ite_true]
    simp [ifx_error_check, IFX_ERROR]
  · intro env properties expected_len m f r h1 h2 hpend hjr hne
    obtain ⟨b, hb⟩ := Option.ne_none_iff_exists'.1 hpend
    have haw : (i2c_cyhal_await_guard_time env.join_result properties).1
        = IFX_ERROR m f r := by
      rw [hjr]
      exact await_error_propagates properties b m f r hb hne
    have hval : ¬(expected_len == 0 || decide (expected_len > UINT32_MAX)
        || expected_len == IFX_PROTOCOL_RECEIVE_LEN_UNKOWN) = true := by
      simp only [Bool.or_eq_true, beq_iff_eq, decide_eq_true_eq, not_or]
      refine ⟨⟨by omega, Nat.not_lt.2 h2⟩, ?_⟩
      have : UINT32_MAX < IFX_PROTOCOL_RECEIVE_LEN_UNKOWN := by decide
      omega
    simp only [i2c_cyhal_receive, hval, get_props_initialized, haw,
      Bool.false_eq_true, if_false, ite_false, ite_true]
    simp [ifx_error_check, IFX_ERROR]

/-- Concrete instance state with a pending guard timer, for the C2 witness. -/
def c2_props : I2CCyHALProtocolProperties :=
  { native_instance := 3, slave_address := 0x18, clock_frequency_hz := 400000,
    guard_time_us := 1000,
    _guard_time_timer :=
      { _start := some { is_timer_elapsed := false, armed := true }, _duration := 0 } }

/-- Witness for C2: the ordering part at a concrete successful transmit,
the not-set rewrite at a concrete pending timer, and the propagation part
at a concrete transmit and a concrete receive whose pending guard timer
joins with an unspecified error. -/
theorem c2_witness :
    BusEvent.deviceSelect 0x18
      ∈ (i2c_cyhal_transmit
          { join_result := IFX_SUCCESS, ioctl_ok := true, write_result := 2,
            set_env := TimerRpi.rpiAllOk }
          { _layer_id := I2C_CYHAL_PROTOCOLLAYER_ID, _properties := some c2_props }
          [0x00, 0xA4]).2.2
    ∧ (∃ tl, (i2c_cyhal_transmit
          { join_result := IFX_SUCCESS, ioctl_ok := true, write_result := 2,
            set_env := TimerRpi.rpiAllOk }
          { _layer_id := I2C_CYHAL_PROTOCOLLAYER_ID, _properties := some c2_props }
          [0x00, 0xA4]).2.2 = BusEvent.guardAwait :: tl)
    ∧ (i2c_cyhal_await_guard_time
        (IFX_ERROR LIB_TIMER IFX_TIMER_JOIN IFX_TIMER_NOT_SET) c2_props).1 = IFX_SUCCESS
    ∧ (i2c_cyhal_transmit
        { join_result := IFX_ERROR LIB_TIMER IFX_TIMER_JOIN IFX_UNSPECIFIED_ERROR,
          ioctl_ok := true, write_result := 2, set_env := TimerRpi.rpiAllOk }
        { _layer_id := I2C_CYHAL_PROTOCOLLAYER_ID, _properties := some c2_props }
        [0x00, 0xA4]).1 = IFX_ERROR LIB_TIMER IFX_TIMER_JOIN IFX_UNSPECIFIED_ERROR
    ∧ (i2c_cyhal_receive
        { join_result := IFX_ERROR LIB_TIMER IFX_TIMER_JOIN IFX_UNSPECIFIED_ERROR,
          malloc_ok := true, ioctl_ok := true, read_result := 2,
          set_env := TimerRpi.rpiAllOk }
        { _layer_id := I2C_CYHAL_PROTOCOLLAYER_ID, _properties := some c2_props }
        2).1 = IFX_ERROR LIB_TIMER IFX_TIMER_JOIN IFX_UNSPECIFIED_ERROR := by
  have hthm := c2_guard_await_precedes_bus_and_not_set_success
  have hmem : BusEvent.deviceSelect 0x18
      ∈ (i2c_cyhal_transmit
          { join_result := IFX_SUCCESS, ioctl_ok := true, write_result := 2,
            set_env := TimerRpi.rpiAllOk }
          { _layer_id := I2C_CYHAL_PROTOCOLLAYER_ID, _properties := some c2_props }
          [0x00, 0xA4]).2.2 := by decide
  refine ⟨hmem, hthm.1 _ _ _ 0x18 hmem,
    hthm.2.2.1 c2_props { is_timer_elapsed := false, armed := true } rfl,
    (hthm.2.2.2.2.1 _ c2_props [0x00, 0xA4] LIB_TIMER IFX_TIMER_JOIN IFX_UNSPECIFIED_ERROR
      (by decide) (by decide) (by decide) rfl (by decide)).1,
    (hthm.2.2.2.2.2 _ c2_props 2 LIB_TIMER IFX_TIMER_JOIN IFX_UNSPECIFIED_ERROR
      (by decide) (by decide) (by decide) rfl (by decide)).1⟩

end OptigaNbt
